import Mathlib

/-!
Shallow embedding of the AidSight aftershock simulation stack:

* `backend/services/aftershock_engine.py` — deterministic graph-propagation engine;
* `dataml/src/simulate_aftershock.py`     — DataML engine (heuristic + optional GNN);
* `backend/services/dataml_client.py`     — orchestrator choosing DataML vs backend engine;
* `backend/routers/simulate.py`           — `/simulate/aftershock` route (clamping,
  normalisation of the affected list).

Modelling conventions:
* Python floats are exact rationals `ℚ`; Python ints are `ℤ`.
* `round(x)` / `round(x, n)` is banker's rounding (half to even), as in CPython.
* `int(x)` on a float truncates toward zero.
* Python dicts are association lists in insertion order; `set(...)` iteration order
  is a deterministic function of the inserted keys within one process, modelled here
  as insertion order (all claims touching it concern determinism or membership only).
* `math.exp`-based `_sigmoid` is transcendental; it is passed as an explicit function
  parameter `sigmoid : ℚ → ℚ` (the engine's totals and membership facts do not
  depend on it, and it is a fixed pure function, so determinism is unaffected).
* The torch forward pass of the trained GNN (`_run_model_forward`'s numerics) is a
  fixed pure function under `torch.no_grad`; it is abstracted as a function field of
  `MlModel`.  Its node-index validation and output plumbing are modelled concretely.
-/

namespace AidSight

/-- Python `round(x)`: round half to even, returning an integer. -/
def pyRoundInt (x : ℚ) : ℤ :=
  let f : ℤ := ⌊x⌋
  let r : ℚ := x - (f : ℚ)
  if r < 1/2 then f
  else if r > 1/2 then f + 1
  else if f % 2 = 0 then f else f + 1

/-- Python `round(x, n)`: banker's rounding at `n` decimal places. -/
def pyRound (n : ℕ) (x : ℚ) : ℚ :=
  (pyRoundInt (x * (10 : ℚ) ^ n) : ℚ) / (10 : ℚ) ^ n

/-- Python `int(x)` on a float: truncation toward zero. -/
def pyInt (x : ℚ) : ℤ := x.num / (x.den : ℤ)

/-- `_clamp(val, lo, hi)` from `aftershock_engine.py`. -/
def pyClamp (val lo hi : ℚ) : ℚ := max lo (min hi val)

/-! ### String primitives

The Lean core versions (`String.toUpper`, `String.trim`, `String.lt`, …) are
not structurally recursive and do not reduce inside the kernel, so the Python
string operations used by the simulation stack are rebuilt here over the
character list, with identical semantics. -/

/-- Python `str.upper()`. -/
def strUpper (s : String) : String := ⟨s.data.map Char.toUpper⟩

/-- Python `str.strip()`: drop leading and trailing whitespace. -/
def strTrim (s : String) : String :=
  ⟨((s.data.dropWhile Char.isWhitespace).reverse.dropWhile Char.isWhitespace).reverse⟩

/-- Lexicographic (code-point) order, Python `<` on strings. -/
def charListLt : List Char → List Char → Bool
  | [], [] => false
  | [], _ :: _ => true
  | _ :: _, [] => false
  | a :: as, b :: bs => if a < b then true else if b < a then false else charListLt as bs

def strLt (a b : String) : Bool := charListLt a.data b.data

/-- Does the list start with `needle`? -/
def listStartsWith : List Char → List Char → Bool
  | [], _ => true
  | _ :: _, [] => false
  | n :: ns, h :: hs => n = h && listStartsWith ns hs

/-- Does the list contain `needle` as a contiguous sublist? -/
def listInfix (needle : List Char) : List Char → Bool
  | [] => needle.isEmpty
  | c :: rest => listStartsWith needle (c :: rest) || listInfix needle rest

/-- Errors raised as `ValueError` anywhere in the simulation stack; constructors
carry exactly the data the Python message interpolates. -/
inductive SimError where
  /-- backend engine: `f"Epicenter '{epicenter}' not in known countries: {list(panel.keys())}"` -/
  | epicenterNotKnown (epicenter : String) (valid : List String)
  /-- dataml: `"horizon_years must be between 1 and 10"` -/
  | badHorizon (horizon_years : ℤ)
  /-- dataml: `f"Node {node_iso3} not found in panel. Valid nodes: {valid}"` -/
  | epicenterNotInPanel (node : String) (valid : List String)
  /-- dataml `_run_model_forward`: `f"Node {node_iso3} not in model. Valid: {nodes}"` -/
  | nodeNotInModel (node : String) (valid : List String)
  /-- dataml `_heuristic_spillover`: `f"Node {node_iso3} not in panel. Valid: {nodes}"` -/
  | heuristicNodeNotInPanel (node : String) (valid : List String)
deriving DecidableEq

/-! ## Backend engine (`backend/services/aftershock_engine.py`) -/

namespace Backend

/-- One row of the backend baseline panel.  Fields may be absent in the raw data;
the engine reads them with `dict.get(key, default)`, so they are `Option ℚ` here
and the defaults are applied at the exact places the Python code applies them. -/
structure PanelRow where
  severity : Option ℚ
  coverage_proxy : Option ℚ
  coverage : Option ℚ
  displaced_out : Option ℚ
  funding_usd : Option ℚ
deriving DecidableEq

/-- A row with every field absent: `panel.get(iso) or {}` in the router. -/
def PanelRow.empty : PanelRow := ⟨none, none, none, none, none⟩

/-- The baseline panel keyed by ISO3 code (Python dict, insertion order). -/
abbrev Panel := List (String × PanelRow)

/-- First binding for a key, mirroring Python dict lookup. -/
def Panel.find (p : Panel) (k : String) : Option PanelRow :=
  match p with
  | [] => none
  | (k', r) :: t => if k' = k then some r else Panel.find t k

def Panel.keys (p : Panel) : List String := p.map (·.1)

/-- One raw edge record `{src, dst, weight}` from the data provider. -/
structure EdgeRec where
  src : String
  dst : String
  weight : ℚ
deriving DecidableEq

/-- `AftershockDataProvider` duck type: baseline year, per-year panel, edge list. -/
structure ProviderData where
  baseline_year : ℤ
  panelOf : ℤ → Panel
  edges : List EdgeRec

/-- Entries of `edge_map.get(node, [])`: the engine files every edge under key
`src.upper()` with value `(dst.upper(), weight)`, in edge-list order. -/
def outEdges (edges : List EdgeRec) (node : String) : List (String × ℚ) :=
  (edges.filter (fun e => strUpper e.src = node)).map (fun e => (strUpper e.dst, e.weight))

/-- `CONFIG` constants of the backend engine. -/
def ALPHA : ℚ := 35/100
def BETA : ℚ := 1/2
def DECAY : ℚ := 7/10

/-- Accumulated shock per node: association list in insertion order,
modelling the Python dicts `shock` / `next_shock`. -/
abbrev Shock := List (String × ℚ × ℚ)

/-- `if dst not in m: m[dst] = (0,0); m[dst] = (m[dst].1 + s, m[dst].2 + d)`. -/
def Shock.add (sh : Shock) (k : String) (s d : ℚ) : Shock :=
  match sh with
  | [] => [(k, s, d)]
  | (k', p) :: t =>
    if k' = k then (k', p.1 + s, p.2 + d) :: t else (k', p) :: Shock.add t k s d

def Shock.keys (sh : Shock) : List String := sh.map (·.1)

def Shock.get (sh : Shock) (k : String) : ℚ × ℚ :=
  match sh with
  | [] => (0, 0)
  | (k', p) :: t => if k' = k then p else Shock.get t k

/-- `if region_scope and dst not in region_scope: continue` — an empty or absent
scope list is falsy in Python, so it filters nothing. -/
def inScope (region_scope : Option (List String)) (c : String) : Bool :=
  match region_scope with
  | none => true
  | some l => l.isEmpty || l.contains c

/-- One round of the propagation loop: build `next_shock` from the current shock
map and merge it back into `shock`. -/
def propagateStep (edges : List EdgeRec) (region_scope : Option (List String))
    (sh : Shock) : Shock :=
  let next : Shock := sh.foldl
    (fun acc e =>
      (outEdges edges e.1).foldl
        (fun acc2 d =>
          if inScope region_scope d.1 then
            Shock.add acc2 d.1 (e.2.1 * d.2 * DECAY) (e.2.2 * d.2 * DECAY)
          else acc2)
        acc)
    []
  next.foldl (fun acc e => Shock.add acc e.1 e.2.1 e.2.2) sh

/-- `for step in range(horizon_steps - 1): ...` — apply `f`, `n` times. -/
def iterN {α : Type} (f : α → α) : ℕ → α → α
  | 0, a => a
  | n + 1, a => iterN f n (f a)

/-- Normalised per-country impact entry (`AffectedCountryImpact` after pydantic):
both engines' entries are coerced into this shape by the client and router. -/
structure Impact where
  country : String
  delta_severity : ℚ
  delta_displaced : ℚ
  extra_cost_usd : ℚ
  prob_underfunded_next : ℚ
  explanation : Option String
  projected_severity : Option ℚ
  projected_coverage : Option ℚ
deriving DecidableEq

structure Totals where
  total_delta_displaced : ℚ
  total_extra_cost_usd : ℚ
  affected_countries : ℤ
  max_delta_severity : ℚ
deriving DecidableEq

/-- `AftershockResult` (the debug-only `graph_edges_used` trace is omitted: the
router always calls with `debug=False` and no claim concerns it). -/
structure SimResult where
  baseline_year : ℤ
  epicenter : String
  delta_funding_pct : ℚ
  horizon_steps : ℤ
  affected : List Impact
  totals : Totals
  notes : List String
deriving DecidableEq

/-- One iteration of the affected-building loop (body of
`for country in all_affected`). -/
def buildStep (sigmoid : ℚ → ℚ) (panel : Panel)
    (region_scope : Option (List String)) (epicenter : String)
    (cost_per_person : ℚ) (acc : List Impact × ℚ × ℚ × ℚ) (e : String × ℚ × ℚ) :
    List Impact × ℚ × ℚ × ℚ :=
  let country := e.1
  match Panel.find panel country with
  | none => acc
  | some p_row =>
    if inScope region_scope country then
      let ds := e.2.1
      let dd := e.2.2
      let extra_cost := dd * cost_per_person
      let funding_proxy := p_row.funding_usd.getD 100000000 / 100000000
      let sev := p_row.severity.getD (1/2) + ds
      let prob := pyClamp (sigmoid (3 * sev - 2 * funding_proxy)) 0 1
      let expl := if country = epicenter then "Direct funding impact"
                  else "Spillover from epicenter"
      let entry : Impact :=
        { country := country
          delta_severity := pyRound 4 ds
          delta_displaced := pyRound 2 dd
          extra_cost_usd := pyRound 2 extra_cost
          prob_underfunded_next := pyRound 4 prob
          explanation := some expl
          projected_severity := none
          projected_coverage := none }
      (acc.1 ++ [entry], acc.2.1 + dd, acc.2.2.1 + extra_cost,
        max acc.2.2.2 |ds|)
    else acc

/-- Fold building the affected list and totals over `set(shock.keys())`
(modelled in insertion order; membership and determinism are order-independent). -/
def buildAffected (sigmoid : ℚ → ℚ) (panel : Panel)
    (region_scope : Option (List String)) (epicenter : String)
    (cost_per_person : ℚ) (sh : Shock) :
    List Impact × ℚ × ℚ × ℚ :=
  sh.foldl (buildStep sigmoid panel region_scope epicenter cost_per_person)
    ([], 0, 0, 0)

/-- `simulate_aftershock` of `backend/services/aftershock_engine.py`.
The returned engine `notes` list is always empty (the engine never appends). -/
def simulate_aftershock (sigmoid : ℚ → ℚ) (epicenter : String)
    (delta_funding_pct : ℚ) (horizon_steps : ℤ) (data : ProviderData)
    (cost_per_person : ℚ := 250) (region_scope : Option (List String) := none) :
    Except SimError SimResult :=
  let year := data.baseline_year
  let panel := data.panelOf year
  match Panel.find panel epicenter with
  | none => .error (.epicenterNotKnown epicenter (Panel.keys panel))
  | some ep =>
    let stress := -delta_funding_pct
    let coverage_proxy := ep.coverage_proxy.getD (1/2)
    let displaced_out0 := ep.displaced_out.getD 10000
    let delta_severity_epicenter := ALPHA * stress * (1 - coverage_proxy)
    let delta_displaced_epicenter := BETA * stress * (displaced_out0 / 100000) * 10000
    let shock0 : Shock := [(epicenter, delta_severity_epicenter, delta_displaced_epicenter)]
    let shock := iterN (propagateStep data.edges region_scope) (horizon_steps - 1).toNat shock0
    let built := buildAffected sigmoid panel region_scope epicenter cost_per_person shock
    .ok
      { baseline_year := year
        epicenter := epicenter
        delta_funding_pct := delta_funding_pct
        horizon_steps := horizon_steps
        affected := built.1
        totals :=
          { total_delta_displaced := pyRound 2 built.2.1
            total_extra_cost_usd := pyRound 2 built.2.2.1
            affected_countries := built.1.length
            max_delta_severity := pyRound 4 built.2.2.2 }
        notes := [] }

end Backend

/-! ## DataML engine (`dataml/src/simulate_aftershock.py`) -/

namespace DataML

/-- Insertion of a string into an ascending list (Python `sorted` is lexicographic
on code points, as is `String` order here). -/
def insertStr (x : String) : List String → List String
  | [] => [x]
  | y :: t => if strLt x y then x :: y :: t else y :: insertStr x t

/-- `sorted(...)` for lists of strings. -/
def sortStrs (l : List String) : List String := l.foldr insertStr []

/-- One row of the processed `sahel_panel`.  Only the columns the modelled paths
read are kept (`country_iso3`, `year`, `coverage`, `people_in_need`); the other
feature columns feed only the abstracted torch forward pass.  The `fillna`
defaults in the Python code patch NaN cells, which have no counterpart in exact
rationals, so the fields are total here. -/
structure DmRow where
  country_iso3 : String
  year : ℤ
  coverage : ℚ
  people_in_need : ℚ
deriving DecidableEq

/-- One row of the `spillover_graph` (`source_iso3`, `target_iso3`; the weight
column is unused by `_neighbors_of` and only feeds the abstracted forward pass). -/
structure GEdge where
  source_iso3 : String
  target_iso3 : String
deriving DecidableEq

/-- `panel_df.loc[panel_df.groupby("country_iso3")["year"].idxmax()]` for one
country: the first row attaining the maximal year. -/
def latestRow (panel : List DmRow) (iso3 : String) : Option DmRow :=
  (panel.filter (fun r => r.country_iso3 = iso3)).foldl
    (fun best r =>
      match best with
      | none => some r
      | some b => if r.year > b.year then some r else some b)
    none

/-- `int(panel_df["year"].max()) if len(panel_df) else 2024`. -/
def baselineYear (panel : List DmRow) : ℤ :=
  ((panel.map (·.year)).max?).getD 2024

/-- `sorted(panel_df["country_iso3"].unique().tolist())` (sorting makes the
first-vs-last duplicate choice irrelevant). -/
def nodesOf (panel : List DmRow) : List String :=
  sortStrs (panel.map (·.country_iso3)).dedup

/-- `_neighbors_of`: undirected neighbor set, returned sorted. -/
def neighborsOf (graph : List GEdge) (node : String) : List String :=
  sortStrs ((graph.filterMap fun r =>
    if r.source_iso3 = node then some r.target_iso3
    else if r.target_iso3 = node then some r.source_iso3
    else none)).dedup

/-- Delta normalisation (lines 184-189 / 236-240): decimal passed through,
percent form divided by 100 (note `0` falls into the `/ 100` branch, harmlessly). -/
def normDelta (d : ℚ) : ℚ := if |d| ≤ 1 ∧ d ≠ 0 then d else d / 100

/-- `latest["coverage"]` for a node (fillna default 0.5 only for a missing row,
which cannot occur for members of `nodesOf panel`). -/
def covBase (panel : List DmRow) (n : String) : ℚ :=
  match latestRow panel n with
  | some r => r.coverage
  | none => 1/2

/-- `latest["people_in_need"]` for a node (fillna default 1e6, as above). -/
def needBase (panel : List DmRow) (n : String) : ℚ :=
  match latestRow panel n with
  | some r => r.people_in_need
  | none => 1000000

/-- Pointwise update of a per-node array. -/
def updFn (f : String → ℚ) (k : String) (v : ℚ) : String → ℚ :=
  fun x => if x = k then v else f x

/-- Final per-node state a strategy hands to `_build_affected`. -/
structure DmState where
  baseline_year : ℤ
  cov_cur : String → ℚ
  need_cur : String → ℚ
  nodes : List String

/-- `_heuristic_spillover`: epicenter coverage drops and need rises, each
neighbor gets a spillover fraction; neighbor updates read the baseline arrays. -/
def heuristicSpillover (panel : List DmRow) (graph : List GEdge)
    (node_iso3 : String) (delta_funding_pct : ℚ) (horizon_steps : ℤ) :
    Except SimError DmState :=
  let nodes := nodesOf panel
  if node_iso3 ∈ nodes then
    let d := normDelta delta_funding_pct
    let cov := covBase panel
    let need := needBase panel
    let shock_magnitude := |d| * (1 + (1/10) * (horizon_steps : ℚ))
    let cov1 := updFn cov node_iso3 (max 0 (cov node_iso3 + d * (1/2)))
    let need1 := updFn need node_iso3 (need node_iso3 * (1 + shock_magnitude * (3/10)))
    let spillover_frac := (1/4) * (horizon_steps : ℚ) / 3
    let upd := (neighborsOf graph node_iso3).foldl
      (fun fs nb =>
        if nb ∈ nodes then
          (updFn fs.1 nb (max 0 (cov nb - spillover_frac * (1/10))),
           updFn fs.2 nb (need nb * (1 + spillover_frac * (2/10))))
        else fs)
      (cov1, need1)
    .ok { baseline_year := baselineYear panel, cov_cur := upd.1,
          need_cur := upd.2, nodes := nodes }
  else
    .error (.heuristicNodeNotInPanel node_iso3 nodes)

/-- Trained-model artifact: the node index of `model_config.json` plus the torch
forward pass, abstracted as a fixed pure function of everything
`_run_model_forward` feeds it (deterministic under `torch.no_grad`).  -/
structure MlModel where
  nodes_index : List String
  forward : List DmRow → List GEdge → String → ℚ → ℤ → (String → ℚ) × (String → ℚ)

/-- `_run_model_forward`: node-index validation and output plumbing, the torch
numerics abstracted into `model.forward` (applied to the normalised delta). -/
def runModelForward (model : MlModel) (panel : List DmRow) (graph : List GEdge)
    (node_iso3 : String) (delta_funding_pct : ℚ) (horizon_steps : ℤ) :
    Except SimError DmState :=
  let nodes := sortStrs model.nodes_index.dedup
  if node_iso3 ∈ model.nodes_index then
    let d := normDelta delta_funding_pct
    let out := model.forward panel graph node_iso3 d horizon_steps
    .ok { baseline_year := baselineYear panel, cov_cur := out.1,
          need_cur := out.2, nodes := nodes }
  else
    .error (.nodeNotInModel node_iso3 nodes)

/-- Cost proxy and plausibility bounds (module constants). -/
def COST_PER_PERSON_USD : ℤ := 100
def MAX_TOTAL_EXTRA_DISPLACED : ℤ := 200000
def TARGET_TOTAL_EXTRA_DISPLACED : ℤ := 100000

/-- One entry of the DataML `affected` list. -/
structure DmAffected where
  country : String
  delta_severity : ℚ
  delta_displaced : ℤ
  extra_cost_usd : ℤ
  prob_underfunded_next : ℚ
deriving DecidableEq

/-- One iteration of the `_build_affected` loop: the entry for one neighbor,
or `none` when the neighbor is skipped (not in the active node set, or no
latest panel row; `baseline_cov` is read but unused in the source). -/
def buildEntry (panel : List DmRow) (st : DmState) (iso3 : String) :
    Option DmAffected :=
  if iso3 ∈ st.nodes then
    match latestRow panel iso3 with
    | none => none
    | some row =>
      let baseline_need : ℤ := pyInt row.people_in_need
      let scenario_need : ℤ := pyRoundInt (st.need_cur iso3)
      let scenario_cov : ℚ := st.cov_cur iso3
      let delta_displaced : ℤ := max 0 (scenario_need - baseline_need)
      let delta_severity : ℚ :=
        if baseline_need > 0 then
          min 1 (((scenario_need : ℚ) - (baseline_need : ℚ)) / (baseline_need : ℚ))
        else 0
      let extra_cost_usd : ℤ := delta_displaced * COST_PER_PERSON_USD
      let prob : ℚ := max 0 (min 1 (pyRound 2 (1 - scenario_cov)))
      some { country := iso3
             delta_severity := pyRound 2 delta_severity
             delta_displaced := delta_displaced
             extra_cost_usd := extra_cost_usd
             prob_underfunded_next := prob }
  else none

/-- `_build_affected`: one entry per neighbor present in the active node set. -/
def buildAffected (panel : List DmRow) (st : DmState)
    (neighbor_iso3_list : List String) : List DmAffected :=
  neighbor_iso3_list.filterMap (buildEntry panel st)

/-- Rescaling of one entry when the raw total exceeds the plausibility ceiling. -/
def rescaleEntry (scale : ℚ) (a : DmAffected) : DmAffected :=
  let dd := pyRoundInt ((a.delta_displaced : ℚ) * scale)
  { a with delta_displaced := dd
           extra_cost_usd := dd * COST_PER_PERSON_USD
           delta_severity := pyRound 2 (min (1/2) a.delta_severity) }

/-- Minimum-impact injection on `affected[0]` (lines 391-395). -/
def injectHead : List DmAffected → List DmAffected
  | [] => []
  | a :: t =>
    { a with delta_displaced := 10000
             extra_cost_usd := 1000000
             delta_severity := pyRound 2 (min 1 (15/100 + a.delta_severity))
             prob_underfunded_next := pyRound 2 (min 1 (38/100 + a.prob_underfunded_next)) } :: t

/-- Totals, plausibility rescaling, and zero-total injection (lines 375-395):
returns the final `(affected, total_extra_displaced, total_extra_cost_usd)`. -/
def finalizeAffected (delta_funding_pct : ℚ) (neighbor_list : List String)
    (affected : List DmAffected) : List DmAffected × ℤ × ℤ :=
  let total := (affected.map (·.delta_displaced)).sum
  let cost := (affected.map (·.extra_cost_usd)).sum
  let step1 : List DmAffected × ℤ × ℤ :=
    if total > MAX_TOTAL_EXTRA_DISPLACED ∧ total > 0 then
      let scale : ℚ := (TARGET_TOTAL_EXTRA_DISPLACED : ℚ) / (total : ℚ)
      let a2 := affected.map (rescaleEntry scale)
      (a2, (a2.map (·.delta_displaced)).sum, (a2.map (·.extra_cost_usd)).sum)
    else (affected, total, cost)
  if delta_funding_pct < 0 ∧ neighbor_list ≠ [] ∧ step1.2.1 = 0 then
    (injectHead step1.1, 10000, 10000 * COST_PER_PERSON_USD)
  else step1

/-- The DataML response dict. -/
structure DmResult where
  baseline_year : ℤ
  epicenter : String
  delta_funding_pct : ℚ
  affected : List DmAffected
  total_extra_displaced : ℤ
  total_extra_cost_usd : ℤ
  notes : List String
deriving DecidableEq

/-- `simulate_aftershock` of `dataml/src/simulate_aftershock.py`, with the
loaded panel, graph and optional trained model passed explicitly (they are
immutable snapshots loaded from disk in the source). -/
def simulate_aftershock (panel : List DmRow) (graph : List GEdge)
    (model : Option MlModel) (node_iso3 : String) (delta_funding_pct : ℚ)
    (horizon_years : ℤ) : Except SimError DmResult :=
  let horizon_steps := horizon_years
  if horizon_steps < 1 ∨ horizon_steps > 10 then
    .error (.badHorizon horizon_years)
  else
    let node := strUpper (strTrim node_iso3)
    if node ∈ panel.map (·.country_iso3) then
      match (match model with
             | some m => runModelForward m panel graph node delta_funding_pct horizon_steps
             | none => heuristicSpillover panel graph node delta_funding_pct horizon_steps) with
      | .error e => .error e
      | .ok st =>
        let neighbor_list := neighborsOf graph node
        let affected0 := buildAffected panel st neighbor_list
        let fin := finalizeAffected delta_funding_pct neighbor_list affected0
        .ok { baseline_year := st.baseline_year
              epicenter := node
              delta_funding_pct := delta_funding_pct
              affected := fin.1
              total_extra_displaced := fin.2.1
              total_extra_cost_usd := fin.2.2
              notes := ["severity proxy: INFORM", "cost proxy: 100 USD per person"] }
    else
      .error (.epicenterNotInPanel node (sortStrs (panel.map (·.country_iso3)).dedup))

end DataML

/-! ## Orchestrator (`backend/services/dataml_client.py`) -/

namespace Client

/-- The importable DataML module state: loaded panel, graph and optional model
(`None` models an import failure, `_DATAML_AVAILABLE = False`). -/
structure DatamlEnv where
  panel : List DataML.DmRow
  graph : List DataML.GEdge
  model : Option DataML.MlModel

/-- Mapping one DataML affected entry to the `AftershockResult` schema: the
client adds `explanation` when missing (DataML entries never carry one). -/
def toImpact (a : DataML.DmAffected) : Backend.Impact :=
  { country := a.country
    delta_severity := a.delta_severity
    delta_displaced := (a.delta_displaced : ℚ)
    extra_cost_usd := (a.extra_cost_usd : ℚ)
    prob_underfunded_next := a.prob_underfunded_next
    explanation := some "Spillover from epicenter"
    projected_severity := none
    projected_coverage := none }

/-- The backend-engine fallback branch of `run_simulate_aftershock` (the engine's
returned `notes` list is always empty and the client appends its marker). -/
def backendFallback (sigmoid : ℚ → ℚ) (provider : Backend.ProviderData)
    (country : String) (delta_funding_pct : ℚ) (horizon_steps : ℤ) :
    Except SimError (Backend.SimResult × Bool) :=
  (Backend.simulate_aftershock sigmoid country delta_funding_pct horizon_steps
      provider 250 none).map
    (fun r => ({ r with notes := r.notes ++ ["Backend fallback (DataML unavailable)"] }, false))

/-- `run_simulate_aftershock`: DataML first, backend engine on unavailability or
any DataML exception.  Returns `(result_dict, used_dataml)`. -/
def run_simulate_aftershock (sigmoid : ℚ → ℚ) (dataml : Option DatamlEnv)
    (provider : Backend.ProviderData) (country : String) (delta_funding_pct : ℚ)
    (horizon_steps : ℤ) : Except SimError (Backend.SimResult × Bool) :=
  match dataml with
  | some env =>
    match DataML.simulate_aftershock env.panel env.graph env.model country
        delta_funding_pct horizon_steps with
    | .ok raw =>
      let affected := raw.affected.map toImpact
      .ok ({ baseline_year := raw.baseline_year
             epicenter := raw.epicenter
             delta_funding_pct := raw.delta_funding_pct
             horizon_steps := horizon_steps
             affected := affected
             totals :=
               { total_delta_displaced := (raw.total_extra_displaced : ℚ)
                 total_extra_cost_usd := (raw.total_extra_cost_usd : ℚ)
                 affected_countries := affected.length
                 max_delta_severity := ((raw.affected.map (·.delta_severity)).max?).getD 0 }
             notes := raw.notes ++ ["DataML simulation"] }, true)
    | .error _ => backendFallback sigmoid provider country delta_funding_pct horizon_steps
  | none => backendFallback sigmoid provider country delta_funding_pct horizon_steps

end Client

/-! ## Route (`backend/routers/simulate.py`, `simulate_aftershock_route`) -/

namespace Route

/-- `AftershockParams` request body (`region_scope`, `cost_per_person` and
`debug` are accepted by the pydantic model but never read by the route body,
so they are omitted). -/
structure AftershockParams where
  epicenter : String
  delta_funding_pct : ℚ
  horizon_steps : ℤ := 2
deriving DecidableEq

/-- The note string the route appends when the funding delta is clamped. -/
def deltaClampNote (d : ℚ) : String :=
  "delta_funding_pct clamped from " ++ toString d ++ " to [-0.3, 0.3]"

/-- The zero-impact epicenter entry inserted at the front when the engine's
affected list lacks the epicenter. -/
def zeroInsert (panel : Backend.Panel) (epicenter : String) (delta : ℚ) :
    Backend.Impact :=
  let row := (Backend.Panel.find panel epicenter).getD Backend.PanelRow.empty
  let base_sev := row.severity.getD (1/2)
  let base_cov := row.coverage_proxy.getD (row.coverage.getD (1/2))
  let proj_cov := max 0 (min 3 (base_cov + delta))
  { country := epicenter
    delta_severity := 0
    delta_displaced := 0
    extra_cost_usd := 0
    prob_underfunded_next := max 0 (min 1 (1 - proj_cov))
    explanation := none
    projected_severity := some base_sev
    projected_coverage := some proj_cov }

/-- The per-entry normalisation loop body: fill `projected_severity` and
`projected_coverage` when missing (entries with an empty country are skipped). -/
def fillProjected (panel : Backend.Panel) (epicenter : String) (delta : ℚ)
    (a : Backend.Impact) : Backend.Impact :=
  let country_iso := strUpper a.country
  if country_iso = "" then a
  else
    let row := (Backend.Panel.find panel country_iso).getD Backend.PanelRow.empty
    let base_sev := row.severity.getD (1/2)
    let base_cov := row.coverage_proxy.getD (row.coverage.getD (1/2))
    let ds := a.delta_severity
    let a1 :=
      match a.projected_severity with
      | some _ => a
      | none =>
        let p0 := base_sev + ds
        let p1 := if delta > 0 then min p0 base_sev else p0
        { a with projected_severity := some (pyRound 4 (max 0 p1)) }
    match a1.projected_coverage with
    | some _ => a1
    | none =>
      let pc := base_cov + (if country_iso = epicenter then delta else 0)
      { a1 with projected_coverage := some (pyRound 4 (max 0 (min 3 pc))) }

/-- The normalisation block of the route (lines 129-164): ensure an epicenter
entry exists and give every entry projected severity/coverage. -/
def normalizeAffected (panel : Backend.Panel) (epicenter : String) (delta : ℚ)
    (affected_raw : List Backend.Impact) : List Backend.Impact :=
  let affected_isos := (affected_raw.filter (fun a => a.country ≠ "")).map (·.country)
  let withEp :=
    if epicenter ≠ "" ∧ epicenter ∉ affected_isos then
      zeroInsert panel epicenter delta :: affected_raw
    else affected_raw
  withEp.map (fillProjected panel epicenter delta)

/-- `simulate_aftershock_route`: clamp inputs, delegate to the orchestrator,
normalise the affected list (a `ValueError` becomes an HTTP 400). -/
def simulate_aftershock_route (sigmoid : ℚ → ℚ) (dataml : Option Client.DatamlEnv)
    (provider : Backend.ProviderData) (payload : AftershockParams) :
    Except SimError Backend.SimResult :=
  let rawDelta := payload.delta_funding_pct
  let oor := rawDelta < -(3/10) ∨ rawDelta > 3/10
  let notes0 : List String := if oor then [deltaClampNote rawDelta] else []
  let delta := if oor then max (-(3/10)) (min (3/10) rawDelta) else rawDelta
  let horizon := max 1 (min 2 payload.horizon_steps)
  let epicenter := (strUpper payload.epicenter)
  match Client.run_simulate_aftershock sigmoid dataml provider epicenter delta horizon with
  | .error e => .error e
  | .ok (rd, _) =>
    let notes1 := notes0 ++ rd.notes
    let panel := provider.panelOf rd.baseline_year
    let affected := normalizeAffected panel epicenter delta rd.affected
    .ok { baseline_year := rd.baseline_year
          epicenter := rd.epicenter
          delta_funding_pct := rd.delta_funding_pct
          horizon_steps := rd.horizon_steps
          affected := affected
          totals := rd.totals
          notes := notes1 }

end Route

/-! ## Concrete fixtures (small baseline snapshots used by witnesses and
counterexamples) -/

/-- A two-country DataML panel: BFA (coverage 0.5, need 1e6), NER (0.4, 5e5). -/
def cPanel : List DataML.DmRow :=
  [⟨"BFA", 2024, 1/2, 1000000⟩, ⟨"NER", 2024, 2/5, 500000⟩]

/-- One spillover edge BFA–NER. -/
def cGraph : List DataML.GEdge := [⟨"BFA", "NER"⟩]

/-- A matching backend provider: same two countries, one directed edge BFA→NER. -/
def cProv : Backend.ProviderData :=
  ⟨2025, fun _ => [("BFA", ⟨some (6/10), some (1/2), none, some 20000, some 100000000⟩),
                   ("NER", ⟨some (7/10), some (2/5), none, some 30000, some 50000000⟩)],
   [⟨"BFA", "NER", 1⟩]⟩

/-- A concrete stand-in for `_sigmoid` in closed statements; the engine facts
stated about totals, membership, clamping and notes do not depend on it. -/
def zeroSigmoid : ℚ → ℚ := fun _ => 0

/-- A one-country provider with a huge `displaced_out`, exhibiting the absence
of any plausibility ceiling in the backend engine. -/
def bigProv : Backend.ProviderData :=
  ⟨2025, fun _ => [("BFA", ⟨some (6/10), some (1/2), none, some 10000000000,
    some 100000000⟩)], []⟩

/-- Does `s` contain `needle` as a substring?  Used to state that a concrete
notes list nowhere records a given kind of clamp. -/
def mentionsStr (needle s : String) : Bool := listInfix needle.data s.data

/-- The two fixed notes the DataML engine always returns. -/
def datamlNotes : List String :=
  ["severity proxy: INFORM", "cost proxy: 100 USD per person"]

/-- A trained-model fixture whose node index does not contain BFA. -/
def mlFixture : DataML.MlModel :=
  ⟨["MLI"], fun _ _ _ _ _ => (fun _ => 0, fun _ => 0)⟩

/-- A provider whose only edge points INTO the epicenter used below
(`AAA → BBB`), exhibiting the directed propagation of the backend engine. -/
def revProv : Backend.ProviderData :=
  ⟨2025, fun _ => [("AAA", ⟨some (1/2), some (1/2), none, some 10000, none⟩),
                   ("BBB", ⟨some (1/2), some (1/2), none, some 10000, none⟩)],
   [⟨"AAA", "BBB", 1⟩]⟩

/-- A one-country panel whose only graph neighbor of BFA is absent from the
panel. -/
def c8Panel : List DataML.DmRow := [⟨"BFA", 2024, 1/2, 1000000⟩]

def c8Graph : List DataML.GEdge := [⟨"BFA", "ZZZ"⟩]

/-- The route's clamped funding delta and horizon. -/
def clampedDelta (payload : Route.AftershockParams) : ℚ :=
  if payload.delta_funding_pct < -(3/10) ∨ payload.delta_funding_pct > 3/10
  then max (-(3/10)) (min (3/10) payload.delta_funding_pct)
  else payload.delta_funding_pct

def clampedHorizon (payload : Route.AftershockParams) : ℤ :=
  max 1 (min 2 payload.horizon_steps)

/-! ## Claims -/

section

/- Batteries marks the `Rat` field operations irreducible; concrete evaluation
in proofs below needs them reducible again. -/
attribute [local semireducible] Rat.mul Rat.inv Rat.add Rat.sub

/-! ### Shape lemmas shared by the claim proofs -/

theorem panel_find_eq_none_iff (p : Backend.Panel) (k : String) :
    Backend.Panel.find p k = none ↔ k ∉ Backend.Panel.keys p := by
  induction p with
  | nil => simp [Backend.Panel.find, Backend.Panel.keys]
  | cons hd tl ih =>
    obtain ⟨k', r⟩ := hd
    by_cases h : k' = k
    · simp [Backend.Panel.find, Backend.Panel.keys, h]
    · simp only [Backend.Panel.find, Backend.Panel.keys, List.map_cons, List.mem_cons,
        if_neg h]

      rw [show Backend.Panel.keys tl = tl.map (fun p => p.1) from rfl] at ih
      rw [ih]
      constructor
      · intro hk hor
        rcases hor with h1 | h1
        · exact h h1.symm
        · exact hk h1
      · intro hor h1
        exact hor (Or.inr h1)

/-- The backend engine never aborts for a known epicenter, and its result
echoes the (clamped) inputs with an empty notes list. -/
theorem backend_ok_fields {sigmoid : ℚ → ℚ} {e : String} {d : ℚ} {h : ℤ}
    {data : Backend.ProviderData} {cost : ℚ} {scope : Option (List String)}
    {r : Backend.SimResult}
    (hok : Backend.simulate_aftershock sigmoid e d h data cost scope = .ok r) :
    r.delta_funding_pct = d ∧ r.horizon_steps = h ∧ r.notes = [] ∧
    r.epicenter = e ∧ r.baseline_year = data.baseline_year := by
  simp only [Backend.simulate_aftershock] at hok
  split at hok
  · exact absurd hok (by simp)
  · injection hok with h1
    subst h1
    exact ⟨rfl, rfl, rfl, rfl, rfl⟩

/-- The backend engine aborts only on an unknown epicenter, with the error
carrying the panel's key list. -/
theorem backend_error_shape {sigmoid : ℚ → ℚ} {e : String} {d : ℚ} {h : ℤ}
    {data : Backend.ProviderData} {cost : ℚ} {scope : Option (List String)}
    {err : SimError}
    (herr : Backend.simulate_aftershock sigmoid e d h data cost scope = .error err) :
    err = .epicenterNotKnown e (Backend.Panel.keys (data.panelOf data.baseline_year)) ∧
    Backend.Panel.find (data.panelOf data.baseline_year) e = none := by
  simp only [Backend.simulate_aftershock] at herr
  split at herr
  · rename_i hf
    injection herr with h1
    exact ⟨h1.symm, hf⟩
  · exact absurd herr (by simp)

/-- A known epicenter always yields a backend result. -/
theorem backend_ok_of_mem {sigmoid : ℚ → ℚ} {e : String} {d : ℚ} {h : ℤ}
    {data : Backend.ProviderData} {cost : ℚ} {scope : Option (List String)}
    {row : Backend.PanelRow}
    (hf : Backend.Panel.find (data.panelOf data.baseline_year) e = some row) :
    ∃ r, Backend.simulate_aftershock sigmoid e d h data cost scope = .ok r := by
  simp only [Backend.simulate_aftershock, hf]
  exact ⟨_, rfl⟩

/-- Successful DataML results echo the inputs and carry the two fixed notes. -/
theorem dataml_ok_fields {panel : List DataML.DmRow} {graph : List DataML.GEdge}
    {model : Option DataML.MlModel} {n : String} {d : ℚ} {h : ℤ}
    {raw : DataML.DmResult}
    (hok : DataML.simulate_aftershock panel graph model n d h = .ok raw) :
    raw.delta_funding_pct = d ∧ raw.epicenter = (strUpper (strTrim n)) ∧
    raw.notes = datamlNotes := by
  simp only [DataML.simulate_aftershock] at hok
  split at hok
  · exact absurd hok (by simp)
  · split at hok
    · split at hok
      · exact absurd hok (by simp)
      · injection hok with h1
        subst h1
        exact ⟨rfl, rfl, rfl⟩
    · exact absurd hok (by simp)

/-- The full shape of a successful DataML result. -/
theorem dataml_ok_shape {panel : List DataML.DmRow} {graph : List DataML.GEdge}
    {model : Option DataML.MlModel} {n : String} {d : ℚ} {h : ℤ}
    {raw : DataML.DmResult}
    (hok : DataML.simulate_aftershock panel graph model n d h = .ok raw) :
    ∃ st : DataML.DmState,
      raw.affected = (DataML.finalizeAffected d (DataML.neighborsOf graph (strUpper (strTrim n)))
        (DataML.buildAffected panel st (DataML.neighborsOf graph (strUpper (strTrim n))))).1 ∧
      raw.total_extra_displaced =
        (DataML.finalizeAffected d (DataML.neighborsOf graph (strUpper (strTrim n)))
          (DataML.buildAffected panel st (DataML.neighborsOf graph (strUpper (strTrim n))))).2.1 := by
  simp only [DataML.simulate_aftershock] at hok
  split at hok
  · exact absurd hok (by simp)
  · split at hok
    · split at hok
      · exact absurd hok (by simp)
      · rename_i st heq
        injection hok with h1
        subst h1
        exact ⟨st, rfl, rfl⟩
    · exact absurd hok (by simp)

/-- The DataML engine aborts with `badHorizon` whenever the horizon is out of
`[1, 10]`, regardless of any other argument. -/
theorem dataml_badHorizon {panel : List DataML.DmRow} {graph : List DataML.GEdge}
    {model : Option DataML.MlModel} {n : String} {d : ℚ} {h : ℤ}
    (hcond : h < 1 ∨ h > 10) :
    DataML.simulate_aftershock panel graph model n d h = .error (.badHorizon h) := by
  simp only [DataML.simulate_aftershock]
  rw [if_pos hcond]

/-- With an in-range horizon and an epicenter absent from the panel, the DataML
engine aborts with a validation error listing the sorted valid codes. -/
theorem dataml_notInPanel {panel : List DataML.DmRow} {graph : List DataML.GEdge}
    {model : Option DataML.MlModel} {n : String} {d : ℚ} {h : ℤ}
    (hh : ¬(h < 1 ∨ h > 10))
    (hmem : (strUpper (strTrim n)) ∉ panel.map (fun r => r.country_iso3)) :
    DataML.simulate_aftershock panel graph model n d h =
      .error (.epicenterNotInPanel (strUpper (strTrim n))
        (DataML.sortStrs (panel.map (fun r => r.country_iso3)).dedup)) := by
  simp only [DataML.simulate_aftershock]
  rw [if_neg hh, if_neg hmem]

/-- A successful orchestrator result echoes the inputs it was given and its
notes are either the DataML notes plus the DataML marker, or the backend
fallback marker alone. -/
theorem client_ok_fields {sigmoid : ℚ → ℚ} {dataml : Option Client.DatamlEnv}
    {provider : Backend.ProviderData} {c : String} {d : ℚ} {h : ℤ}
    {rd : Backend.SimResult} {b : Bool}
    (hok : Client.run_simulate_aftershock sigmoid dataml provider c d h = .ok (rd, b)) :
    rd.delta_funding_pct = d ∧ rd.horizon_steps = h ∧
    (rd.notes = datamlNotes ++ ["DataML simulation"] ∨
     rd.notes = ["Backend fallback (DataML unavailable)"]) := by
  have hfb : ∀ rd' b',
      Client.backendFallback sigmoid provider c d h = .ok (rd', b') →
      rd'.delta_funding_pct = d ∧ rd'.horizon_steps = h ∧
      (rd'.notes = datamlNotes ++ ["DataML simulation"] ∨
       rd'.notes = ["Backend fallback (DataML unavailable)"]) := by
    intro rd' b' hfb
    simp only [Client.backendFallback] at hfb
    cases hb : Backend.simulate_aftershock sigmoid c d h provider 250 none with
    | error err => rw [hb] at hfb; exact absurd hfb (by simp [Except.map])
    | ok r0 =>
      rw [hb] at hfb
      simp only [Except.map] at hfb
      injection hfb with h1
      obtain ⟨h2, h3⟩ := Prod.mk.injEq .. ▸ h1
      obtain ⟨hd', hh', hn', _, _⟩ := backend_ok_fields hb
      refine ⟨?_, ?_, Or.inr ?_⟩
      · rw [← h2]; exact hd'
      · rw [← h2]; exact hh'
      · rw [← h2]; simp [hn']
  cases dataml with
  | none => exact hfb rd b hok
  | some env =>
    simp only [Client.run_simulate_aftershock] at hok
    cases hdm : DataML.simulate_aftershock env.panel env.graph env.model c d h with
    | error err =>
      rw [hdm] at hok
      exact hfb rd b hok
    | ok raw =>
      rw [hdm] at hok
      injection hok with h1
      obtain ⟨h2, h3⟩ := Prod.mk.injEq .. ▸ h1
      obtain ⟨hd', _, hn'⟩ := dataml_ok_fields hdm
      refine ⟨?_, ?_, Or.inl ?_⟩
      · rw [← h2]; exact hd'
      · rw [← h2]
      · rw [← h2]; simp [hn']

/-- The orchestrator can only fail with the backend engine's unknown-epicenter
error (a DataML failure of any kind falls back to the backend engine). -/
theorem client_error_shape {sigmoid : ℚ → ℚ} {dataml : Option Client.DatamlEnv}
    {provider : Backend.ProviderData} {c : String} {d : ℚ} {h : ℤ} {e : SimError}
    (herr : Client.run_simulate_aftershock sigmoid dataml provider c d h = .error e) :
    e = .epicenterNotKnown c (Backend.Panel.keys (provider.panelOf provider.baseline_year)) := by
  have hfb : Client.backendFallback sigmoid provider c d h = .error e →
      e = .epicenterNotKnown c (Backend.Panel.keys (provider.panelOf provider.baseline_year)) := by
    intro hfb
    simp only [Client.backendFallback] at hfb
    cases hb : Backend.simulate_aftershock sigmoid c d h provider 250 none with
    | error err =>
      rw [hb] at hfb
      simp only [Except.map] at hfb
      injection hfb with h1
      exact h1 ▸ (backend_error_shape hb).1
    | ok r0 => rw [hb] at hfb; exact absurd hfb (by simp [Except.map])
  cases dataml with
  | none => exact hfb herr
  | some env =>
    simp only [Client.run_simulate_aftershock] at herr
    cases hdm : DataML.simulate_aftershock env.panel env.graph env.model c d h with
    | error err => rw [hdm] at herr; exact hfb herr
    | ok raw => rw [hdm] at herr; exact absurd herr (by simp)

/-- Shape of a successful route result in terms of the orchestrator call on the
clamped inputs. -/
theorem route_ok_shape {sigmoid : ℚ → ℚ} {dataml : Option Client.DatamlEnv}
    {provider : Backend.ProviderData} {payload : Route.AftershockParams}
    {r : Backend.SimResult}
    (hok : Route.simulate_aftershock_route sigmoid dataml provider payload = .ok r) :
    ∃ rd b, Client.run_simulate_aftershock sigmoid dataml provider
        (strUpper payload.epicenter) (clampedDelta payload) (clampedHorizon payload) =
          .ok (rd, b) ∧
      r = { baseline_year := rd.baseline_year
            epicenter := rd.epicenter
            delta_funding_pct := rd.delta_funding_pct
            horizon_steps := rd.horizon_steps
            affected := Route.normalizeAffected (provider.panelOf rd.baseline_year)
              (strUpper payload.epicenter) (clampedDelta payload) rd.affected
            totals := rd.totals
            notes := (if payload.delta_funding_pct < -(3/10) ∨
                        payload.delta_funding_pct > 3/10
                      then [Route.deltaClampNote payload.delta_funding_pct] else []) ++
              rd.notes } := by
  simp only [Route.simulate_aftershock_route] at hok
  split at hok
  · exact absurd hok (by simp)
  all_goals
    rename_i rd b heq
    injection hok with h1
    subst h1
    exact ⟨rd, b, heq, rfl⟩

/-- A route error is the orchestrator's error on the clamped inputs. -/
theorem route_error_shape {sigmoid : ℚ → ℚ} {dataml : Option Client.DatamlEnv}
    {provider : Backend.ProviderData} {payload : Route.AftershockParams}
    {e : SimError}
    (herr : Route.simulate_aftershock_route sigmoid dataml provider payload = .error e) :
    Client.run_simulate_aftershock sigmoid dataml provider
      (strUpper payload.epicenter) (clampedDelta payload) (clampedHorizon payload) =
        .error e := by
  simp only [Route.simulate_aftershock_route] at herr
  split at herr
  · rename_i heq
    injection herr with h1
    subst h1
    exact heq
  · exact absurd herr (by simp)

/-- C1: the simulation is deterministic — for a fixed baseline panel, edge
list and trained-model state, two calls with identical epicenter,
`delta_funding_pct` and horizon produce identical results (hence identical
`affected` lists, entry for entry and value for value, and identical totals),
for both the DataML engine and the backend engine.  Both engines are pure
functions of their inputs (the only nondeterminism in the source, Python set
iteration order, is a fixed function of the set contents within a process). -/
theorem c1_determinism
    (sigmoid : ℚ → ℚ) (panel : List DataML.DmRow) (graph : List DataML.GEdge)
    (model : Option DataML.MlModel) (data : Backend.ProviderData)
    (cost : ℚ) (scope : Option (List String))
    (e₁ e₂ : String) (d₁ d₂ : ℚ) (h₁ h₂ : ℤ)
    (he : e₁ = e₂) (hd : d₁ = d₂) (hh : h₁ = h₂) :
    DataML.simulate_aftershock panel graph model e₁ d₁ h₁ =
      DataML.simulate_aftershock panel graph model e₂ d₂ h₂ ∧
    Backend.simulate_aftershock sigmoid e₁ d₁ h₁ data cost scope =
      Backend.simulate_aftershock sigmoid e₂ d₂ h₂ data cost scope := by
  subst he; subst hd; subst hh; exact ⟨rfl, rfl⟩

theorem c1_determinism_witness :
    DataML.simulate_aftershock cPanel cGraph none "BFA" (-1/5) 2 =
      DataML.simulate_aftershock cPanel cGraph none "BFA" (-1/5) 2 ∧
    Backend.simulate_aftershock zeroSigmoid "BFA" (-1/5) 2 cProv 250 none =
      Backend.simulate_aftershock zeroSigmoid "BFA" (-1/5) 2 cProv 250 none :=
  c1_determinism zeroSigmoid cPanel cGraph none cProv 250 none
    "BFA" "BFA" (-1/5) (-1/5) 2 2 rfl rfl rfl

theorem clampedDelta_mem (payload : Route.AftershockParams) :
    -(3/10) ≤ clampedDelta payload ∧ clampedDelta payload ≤ 3/10 := by
  unfold clampedDelta
  split
  · exact ⟨le_max_left _ _, max_le (by norm_num) (min_le_left _ _)⟩
  · rename_i hc
    rw [not_or, not_lt, not_lt] at hc
    exact ⟨hc.1, hc.2⟩

theorem clampedHorizon_mem (payload : Route.AftershockParams) :
    1 ≤ clampedHorizon payload ∧ clampedHorizon payload ≤ 2 := by
  exact ⟨le_max_left _ _, max_le (by norm_num) (min_le_left _ _)⟩

/-- C2 (amended): an out-of-range `delta_funding_pct` is silently clamped into
[-0.3, 0.3] and an out-of-range `horizon_steps` into [1, 2], the call is never
rejected for an out-of-range value (any rejection is the unknown-epicenter
validation error), and the clamped values appear in the result; the delta
clamp, when applied, is recorded as a note, but the horizon clamp is not —
apart from the optional delta-clamp note, the notes are exactly one of the two
fixed engine note lists, neither of which mentions the horizon. -/
theorem c2_clamping_amended (sigmoid : ℚ → ℚ) (dataml : Option Client.DatamlEnv)
    (provider : Backend.ProviderData) (payload : Route.AftershockParams) :
    (match Route.simulate_aftershock_route sigmoid dataml provider payload with
     | .ok r =>
        r.delta_funding_pct = clampedDelta payload ∧
        -(3/10) ≤ r.delta_funding_pct ∧ r.delta_funding_pct ≤ 3/10 ∧
        r.horizon_steps = clampedHorizon payload ∧
        1 ≤ r.horizon_steps ∧ r.horizon_steps ≤ 2 ∧
        (r.notes = (if payload.delta_funding_pct < -(3/10) ∨
                      payload.delta_funding_pct > 3/10
                    then [Route.deltaClampNote payload.delta_funding_pct] else []) ++
            (datamlNotes ++ ["DataML simulation"]) ∨
         r.notes = (if payload.delta_funding_pct < -(3/10) ∨
                      payload.delta_funding_pct > 3/10
                    then [Route.deltaClampNote payload.delta_funding_pct] else []) ++
            ["Backend fallback (DataML unavailable)"])
     | .error e => ∃ v, e = .epicenterNotKnown (strUpper payload.epicenter) v) := by
  cases hr : Route.simulate_aftershock_route sigmoid dataml provider payload with
  | error e =>
    exact ⟨_, client_error_shape (route_error_shape hr)⟩
  | ok r =>
    obtain ⟨rd, b, hcl, hre⟩ := route_ok_shape hr
    obtain ⟨hd, hh, hn⟩ := client_ok_fields hcl
    subst hre
    refine ⟨hd, ?_, ?_, hh, ?_, ?_, ?_⟩
    · exact hd ▸ (clampedDelta_mem payload).1
    · exact hd ▸ (clampedDelta_mem payload).2
    · exact hh ▸ (clampedHorizon_mem payload).1
    · exact hh ▸ (clampedHorizon_mem payload).2
    · rcases hn with h | h
      · exact Or.inl (by rw [show ({ baseline_year := rd.baseline_year, epicenter := rd.epicenter, delta_funding_pct := rd.delta_funding_pct, horizon_steps := rd.horizon_steps, affected := Route.normalizeAffected (provider.panelOf rd.baseline_year) (strUpper payload.epicenter) (clampedDelta payload) rd.affected, totals := rd.totals, notes := (if payload.delta_funding_pct < -(3/10) ∨ payload.delta_funding_pct > 3/10 then [Route.deltaClampNote payload.delta_funding_pct] else []) ++ rd.notes } : Backend.SimResult).notes = (if payload.delta_funding_pct < -(3/10) ∨ payload.delta_funding_pct > 3/10 then [Route.deltaClampNote payload.delta_funding_pct] else []) ++ rd.notes from rfl, h])
      · exact Or.inr (by rw [show ({ baseline_year := rd.baseline_year, epicenter := rd.epicenter, delta_funding_pct := rd.delta_funding_pct, horizon_steps := rd.horizon_steps, affected := Route.normalizeAffected (provider.panelOf rd.baseline_year) (strUpper payload.epicenter) (clampedDelta payload) rd.affected, totals := rd.totals, notes := (if payload.delta_funding_pct < -(3/10) ∨ payload.delta_funding_pct > 3/10 then [Route.deltaClampNote payload.delta_funding_pct] else []) ++ rd.notes } : Backend.SimResult).notes = (if payload.delta_funding_pct < -(3/10) ∨ payload.delta_funding_pct > 3/10 then [Route.deltaClampNote payload.delta_funding_pct] else []) ++ rd.notes from rfl, h])

/-- C2 is refuted as stated: with `horizon_steps = 10` (clamped to 2) and an
in-range delta, the result's notes are exactly the DataML engine notes plus the
orchestrator's marker — no note records the horizon clamp (none of the notes
even contains the string "horizon"). -/
theorem c2_counterexample :
    ((Route.simulate_aftershock_route zeroSigmoid (some ⟨cPanel, cGraph, none⟩) cProv
        ⟨"BFA", -1/5, 10⟩).toOption.map
      (fun r => (r.horizon_steps, r.notes))) =
      some (2, datamlNotes ++ ["DataML simulation"]) ∧
    (datamlNotes ++ ["DataML simulation"]).all
      (fun s => !(mentionsStr "horizon" s)) = true := by
  constructor
  · decide
  · decide

theorem insertStr_ne_nil (x : String) (l : List String) :
    DataML.insertStr x l ≠ [] := by
  cases l with
  | nil => simp [DataML.insertStr]
  | cons y t =>
    simp only [DataML.insertStr]
    split <;> simp

theorem sortStrs_ne_nil {l : List String} (hl : l ≠ []) :
    DataML.sortStrs l ≠ [] := by
  cases l with
  | nil => exact absurd rfl hl
  | cons x t => exact insertStr_ne_nil x _

/-- C3 (amended): an epicenter absent from the loaded baseline panel aborts the
call with a validation error listing the panel's valid codes (all of them for
the backend engine, sorted and deduplicated for the DataML engine; nonempty
whenever the panel is), and a known epicenter never aborts the backend engine —
for the backend engine the unknown epicenter is the only abort condition.  The
DataML engine, however, also aborts when `horizon_years` lies outside [1, 10]
(and, with a model loaded, when the epicenter is missing from the model's node
index), so the "only condition" clause of the claim fails there. -/
theorem c3_validation_amended :
    (∀ (sigmoid : ℚ → ℚ) (e : String) (d : ℚ) (h : ℤ) (data : Backend.ProviderData)
        (cost : ℚ) (scope : Option (List String)),
      (e ∉ Backend.Panel.keys (data.panelOf data.baseline_year) →
        Backend.simulate_aftershock sigmoid e d h data cost scope =
          .error (.epicenterNotKnown e
            (Backend.Panel.keys (data.panelOf data.baseline_year)))) ∧
      (e ∈ Backend.Panel.keys (data.panelOf data.baseline_year) →
        ∃ r, Backend.simulate_aftershock sigmoid e d h data cost scope = .ok r)) ∧
    (∀ (panel : List DataML.DmRow) (graph : List DataML.GEdge)
        (model : Option DataML.MlModel) (n : String) (d : ℚ) (h : ℤ),
      (¬(h < 1 ∨ h > 10) →
        (strUpper (strTrim n)) ∉ panel.map (fun r => r.country_iso3) →
        DataML.simulate_aftershock panel graph model n d h =
          .error (.epicenterNotInPanel (strUpper (strTrim n))
            (DataML.sortStrs (panel.map (fun r => r.country_iso3)).dedup))) ∧
      ((h < 1 ∨ h > 10) →
        DataML.simulate_aftershock panel graph model n d h =
          .error (.badHorizon h))) ∧
    (∀ panel : List DataML.DmRow, panel ≠ [] →
      DataML.sortStrs (panel.map (fun r => r.country_iso3)).dedup ≠ []) := by
  refine ⟨fun sigmoid e d h data cost scope => ⟨?_, ?_⟩,
    fun panel graph model n d h => ⟨fun hh hmem => dataml_notInPanel hh hmem,
      fun hh => dataml_badHorizon hh⟩,
    fun panel hp => ?_⟩
  · intro hmem
    have hf : Backend.Panel.find (data.panelOf data.baseline_year) e = none :=
      (panel_find_eq_none_iff _ _).mpr hmem
    simp only [Backend.simulate_aftershock, hf]
  · intro hmem
    cases hf : Backend.Panel.find (data.panelOf data.baseline_year) e with
    | none => exact absurd ((panel_find_eq_none_iff _ _).mp hf) (by simpa using hmem)
    | some row => exact backend_ok_of_mem hf
  · apply sortStrs_ne_nil
    intro hdedup
    rw [List.dedup_eq_nil, List.map_eq_nil_iff] at hdedup
    exact hp hdedup

theorem c3_validation_amended_witness :
    Backend.simulate_aftershock zeroSigmoid "XXX" (-1/5) 2 cProv 250 none =
      .error (.epicenterNotKnown "XXX" ["BFA", "NER"]) ∧
    DataML.simulate_aftershock cPanel cGraph none "XXX" (-1/5) 2 =
      .error (.epicenterNotInPanel "XXX" ["BFA", "NER"]) ∧
    DataML.sortStrs (cPanel.map (fun r => r.country_iso3)).dedup ≠ [] := by
  refine ⟨?_, ?_, ?_⟩
  · exact ((c3_validation_amended.1 zeroSigmoid "XXX" (-1/5) 2 cProv 250 none).1
      (by decide)).trans rfl
  · exact ((c3_validation_amended.2.1 cPanel cGraph none "XXX" (-1/5) 2).1
      (by decide) (by decide)).trans rfl
  · exact c3_validation_amended.2.2 cPanel (by decide)

/-- C3 is refuted as stated: the unknown epicenter is not the only abort
condition — the DataML engine also aborts for a valid epicenter when the
horizon is out of range (here `horizon_years = 0` with `"BFA"` in the panel). -/
theorem c3_counterexample :
    DataML.simulate_aftershock cPanel cGraph none "BFA" (-1/5) 0 =
      .error (.badHorizon 0) ∧
    "BFA" ∈ cPanel.map (fun r => r.country_iso3) := by
  constructor
  · exact dataml_badHorizon (by decide)
  · decide

/-- Full shape of a successful backend-engine result. -/
theorem backend_ok_shape {sigmoid : ℚ → ℚ} {e : String} {d : ℚ} {h : ℤ}
    {data : Backend.ProviderData} {cost : ℚ} {scope : Option (List String)}
    {r : Backend.SimResult}
    (hok : Backend.simulate_aftershock sigmoid e d h data cost scope = .ok r) :
    ∃ row, Backend.Panel.find (data.panelOf data.baseline_year) e = some row ∧
      r.affected = (Backend.buildAffected sigmoid (data.panelOf data.baseline_year)
        scope e cost
        (Backend.iterN (Backend.propagateStep data.edges scope) (h - 1).toNat
          [(e, Backend.ALPHA * -d * (1 - row.coverage_proxy.getD (1/2)),
            Backend.BETA * -d * (row.displaced_out.getD 10000 / 100000) * 10000)])).1 ∧
      r.totals.total_delta_displaced =
        pyRound 2 (Backend.buildAffected sigmoid (data.panelOf data.baseline_year)
          scope e cost
          (Backend.iterN (Backend.propagateStep data.edges scope) (h - 1).toNat
            [(e, Backend.ALPHA * -d * (1 - row.coverage_proxy.getD (1/2)),
              Backend.BETA * -d * (row.displaced_out.getD 10000 / 100000) * 10000)])).2.1 := by
  simp only [Backend.simulate_aftershock] at hok
  split at hok
  · exact absurd hok (by simp)
  · rename_i row heq
    injection hok with h1
    subst h1
    exact ⟨row, heq, rfl, rfl⟩

/-- The countries reported by the backend affected-list builder are exactly the
shock keys that are in the panel and in scope, in shock order. -/
theorem buildAffected_countries (sigmoid : ℚ → ℚ) (panel : Backend.Panel)
    (scope : Option (List String)) (e : String) (cost : ℚ) (sh : Backend.Shock) :
    (Backend.buildAffected sigmoid panel scope e cost sh).1.map (fun a => a.country) =
      (sh.filter (fun p => (Backend.Panel.find panel p.1).isSome &&
        Backend.inScope scope p.1)).map (fun p => p.1) := by
  have aux : ∀ (l : Backend.Shock) (acc : List Backend.Impact × ℚ × ℚ × ℚ),
      (l.foldl (Backend.buildStep sigmoid panel scope e cost) acc).1.map
          (fun a => a.country) =
        acc.1.map (fun a => a.country) ++
          (l.filter (fun p => (Backend.Panel.find panel p.1).isSome &&
            Backend.inScope scope p.1)).map (fun p => p.1) := by
    intro l
    induction l with
    | nil => intro acc; simp
    | cons p t ih =>
      intro acc
      simp only [List.foldl_cons, List.filter_cons]
      rw [ih]
      cases hf : Backend.Panel.find panel p.1 with
      | none => simp [Backend.buildStep, hf]
      | some row =>
        by_cases hs : Backend.inScope scope p.1
        · simp [Backend.buildStep, hf, hs]
        · rw [Bool.not_eq_true] at hs
          simp [Backend.buildStep, hf, hs]
  simpa using aux sh ([], 0, 0, 0)

theorem shock_add_keys {l : Backend.Shock} {k c : String} {s d : ℚ}
    (hc : c ∈ (Backend.Shock.add l k s d).map (fun p => p.1)) :
    c ∈ l.map (fun p => p.1) ∨ c = k := by
  induction l with
  | nil =>
    simp only [Backend.Shock.add, List.map_cons, List.map_nil,
      List.mem_singleton] at hc
    exact Or.inr hc
  | cons p t ih =>
    simp only [Backend.Shock.add] at hc
    by_cases hk : p.1 = k
    · rw [if_pos hk] at hc
      simp only [List.map_cons, List.mem_cons] at hc ⊢
      rcases hc with h1 | h1
      · exact Or.inl (Or.inl h1)
      · exact Or.inl (Or.inr h1)
    · rw [if_neg hk] at hc
      simp only [List.map_cons, List.mem_cons] at hc ⊢
      rcases hc with h1 | h1
      · exact Or.inl (Or.inl h1)
      · rcases ih h1 with h2 | h2
        · exact Or.inl (Or.inr h2)
        · exact Or.inr h2

/-- Keys of the merge fold (`for dst, (s, d) in next_shock.items(): ...`). -/
theorem shock_merge_keys {xs init : Backend.Shock} {c : String}
    (hc : c ∈ (xs.foldl (fun acc e => Backend.Shock.add acc e.1 e.2.1 e.2.2)
      init).map (fun p => p.1)) :
    c ∈ init.map (fun p => p.1) ∨ c ∈ xs.map (fun p => p.1) := by
  induction xs generalizing init with
  | nil => exact Or.inl hc
  | cons x t ih =>
    simp only [List.foldl_cons] at hc
    simp only [List.map_cons, List.mem_cons]
    rcases ih hc with h1 | h1
    · rcases shock_add_keys h1 with h2 | h2
      · exact Or.inl h2
      · exact Or.inr (Or.inl h2)
    · exact Or.inr (Or.inr h1)

/-- Keys of the inner per-edge fold: only destinations of out-edges are added. -/
theorem shock_inner_keys {ds : List (String × ℚ)} {scope : Option (List String)}
    {qs qd : ℚ} {acc : Backend.Shock} {c : String}
    (hc : c ∈ ((ds.foldl (fun acc2 d =>
        if Backend.inScope scope d.1 then
          Backend.Shock.add acc2 d.1 (qs * d.2 * Backend.DECAY)
            (qd * d.2 * Backend.DECAY)
        else acc2) acc)).map (fun p => p.1)) :
    c ∈ acc.map (fun p => p.1) ∨ c ∈ ds.map (fun p => p.1) := by
  induction ds generalizing acc with
  | nil => exact Or.inl hc
  | cons x t ih =>
    simp only [List.foldl_cons] at hc
    simp only [List.map_cons, List.mem_cons]
    by_cases hs : Backend.inScope scope x.1
    · rw [if_pos hs] at hc
      rcases ih hc with h1 | h1
      · rcases shock_add_keys h1 with h2 | h2
        · exact Or.inl h2
        · exact Or.inr (Or.inl h2)
      · exact Or.inr (Or.inr h1)
    · rw [if_neg hs] at hc
      rcases ih hc with h1 | h1
      · exact Or.inl h1
      · exact Or.inr (Or.inr h1)

/-- Propagation only ever crosses an edge from its `src` to its `dst`: a key of
the next shock map is either an existing key or the destination of an out-edge
of an existing key. -/
theorem propagateStep_keys {edges : List Backend.EdgeRec}
    {scope : Option (List String)} {sh : Backend.Shock} {c : String}
    (hc : c ∈ (Backend.propagateStep edges scope sh).map (fun p => p.1)) :
    c ∈ sh.map (fun p => p.1) ∨
    ∃ s ∈ sh.map (fun p => p.1),
      c ∈ (Backend.outEdges edges s).map (fun p => p.1) := by
  simp only [Backend.propagateStep] at hc
  rcases shock_merge_keys hc with h1 | h1
  · exact Or.inl h1
  · -- c is a key of `next`; show it is an out-edge destination of some key of sh
    clear hc
    have main : ∀ (l : Backend.Shock) (init : Backend.Shock),
        c ∈ (l.foldl (fun acc e =>
          (Backend.outEdges edges e.1).foldl (fun acc2 d =>
            if Backend.inScope scope d.1 then
              Backend.Shock.add acc2 d.1 (e.2.1 * d.2 * Backend.DECAY)
                (e.2.2 * d.2 * Backend.DECAY)
            else acc2) acc) init).map (fun p => p.1) →
        c ∈ init.map (fun p => p.1) ∨
        ∃ s ∈ l.map (fun p => p.1),
          c ∈ (Backend.outEdges edges s).map (fun p => p.1) := by
      intro l
      induction l with
      | nil => intro init h; exact Or.inl h
      | cons x t ih =>
        intro init h
        simp only [List.foldl_cons] at h
        rcases ih _ h with h2 | h2
        · rcases shock_inner_keys h2 with h3 | h3
          · exact Or.inl h3
          · exact Or.inr ⟨x.1, by simp, h3⟩
        · obtain ⟨s, hs, hcs⟩ := h2
          refine Or.inr ⟨s, ?_, hcs⟩
          simp only [List.map_cons, List.mem_cons]
          exact Or.inr hs
    rcases main sh [] h1 with h2 | h2
    · simp at h2
    · exact Or.inr h2

/-- A built entry carries the neighbor code it was built from. -/
theorem buildEntry_country {panel : List DataML.DmRow} {st : DataML.DmState}
    {iso3 : String} {a : DataML.DmAffected}
    (h : DataML.buildEntry panel st iso3 = some a) : a.country = iso3 := by
  simp only [DataML.buildEntry] at h
  split at h
  · split at h
    · exact absurd h (by simp)
    · injection h with h1
      subst h1
      rfl
  · exact absurd h (by simp)

/-- Countries of DataML affected entries come from the neighbor list. -/
theorem dm_buildAffected_countries {panel : List DataML.DmRow}
    {st : DataML.DmState} {nl : List String} {c : String}
    (hc : c ∈ (DataML.buildAffected panel st nl).map (fun a => a.country)) :
    c ∈ nl := by
  induction nl with
  | nil => simp [DataML.buildAffected] at hc
  | cons x t ih =>
    simp only [DataML.buildAffected, List.filterMap_cons] at hc
    cases hfx : DataML.buildEntry panel st x with
    | none =>
      rw [hfx] at hc
      exact List.mem_cons_of_mem _ (ih hc)
    | some a =>
      rw [hfx] at hc
      simp only [List.map_cons, List.mem_cons] at hc
      rcases hc with h1 | h1
      · have : a.country = x := buildEntry_country hfx
        rw [h1, this]
        exact List.mem_cons_self _ _
      · exact List.mem_cons_of_mem _ (ih h1)

/-- `finalizeAffected` does not change which countries appear (rescaling maps
entries in place; injection modifies the head in place). -/
theorem finalize_countries (d : ℚ) (nl : List String)
    (aff : List DataML.DmAffected) :
    (DataML.finalizeAffected d nl aff).1.map (fun a => a.country) =
      aff.map (fun a => a.country) := by
  simp only [DataML.finalizeAffected]
  split
  · split
    · rename_i h1 h2
      cases aff with
      | nil => simp [DataML.injectHead]
      | cons a t => simp [DataML.injectHead, DataML.rescaleEntry]
    · simp [DataML.rescaleEntry]
  · split
    · cases aff with
      | nil => simp [DataML.injectHead]
      | cons a t => simp [DataML.injectHead]
    · rfl

/-- C4 (amended): the backend engine contains exactly the epicenter at
`horizon_steps = 1`, and at `horizon_steps = 2` only the epicenter and direct
edge destinations of the epicenter; the DataML engine's affected list instead
always consists of direct graph neighbors of the epicenter (for every horizon)
— in particular it does not contain the epicenter itself at `horizon_steps = 1`
unless the epicenter is its own neighbor. -/
theorem c4_containment_amended :
    (∀ (sigmoid : ℚ → ℚ) (e : String) (d cost : ℚ) (data : Backend.ProviderData)
        (r : Backend.SimResult),
      Backend.simulate_aftershock sigmoid e d 1 data cost none = .ok r →
      r.affected.map (fun a => a.country) = [e]) ∧
    (∀ (sigmoid : ℚ → ℚ) (e : String) (d cost : ℚ) (data : Backend.ProviderData)
        (r : Backend.SimResult) (c : String),
      Backend.simulate_aftershock sigmoid e d 2 data cost none = .ok r →
      c ∈ r.affected.map (fun a => a.country) →
      c = e ∨ c ∈ (Backend.outEdges data.edges e).map (fun p => p.1)) ∧
    (∀ (panel : List DataML.DmRow) (graph : List DataML.GEdge)
        (model : Option DataML.MlModel) (n : String) (d : ℚ) (h : ℤ)
        (raw : DataML.DmResult) (c : String),
      DataML.simulate_aftershock panel graph model n d h = .ok raw →
      c ∈ raw.affected.map (fun a => a.country) →
      c ∈ DataML.neighborsOf graph (strUpper (strTrim n))) := by
  refine ⟨?_, ?_, ?_⟩
  · intro sigmoid e d cost data r hok
    obtain ⟨row, hrow, haff, _⟩ := backend_ok_shape hok
    rw [haff, buildAffected_countries]
    have : ((1 : ℤ) - 1).toNat = 0 := rfl
    rw [this]
    simp [Backend.iterN, hrow, Backend.inScope]
  · intro sigmoid e d cost data r c hok hc
    obtain ⟨row, hrow, haff, _⟩ := backend_ok_shape hok
    rw [haff, buildAffected_countries] at hc
    have h21 : ((2 : ℤ) - 1).toNat = 1 := rfl
    rw [h21] at hc
    simp only [Backend.iterN] at hc
    have hc2 : c ∈ (Backend.propagateStep data.edges none
        [(e, Backend.ALPHA * -d * (1 - row.coverage_proxy.getD (1/2)),
          Backend.BETA * -d * (row.displaced_out.getD 10000 / 100000) * 10000)]).map
        (fun p => p.1) := by
      obtain ⟨p, hp, hpc⟩ := List.mem_map.mp hc
      exact List.mem_map.mpr ⟨p, List.mem_of_mem_filter hp, hpc⟩
    rcases propagateStep_keys hc2 with h1 | h1
    · simp at h1
      exact Or.inl h1
    · obtain ⟨s, hs, hcs⟩ := h1
      simp at hs
      subst hs
      exact Or.inr hcs
  · intro panel graph model n d h raw c hok hc
    obtain ⟨st, haff, _⟩ := dataml_ok_shape hok
    rw [haff, finalize_countries] at hc
    exact dm_buildAffected_countries hc

theorem c4_containment_amended_witness :
    ((match Backend.simulate_aftershock zeroSigmoid "BFA" (-1/5) 1 cProv 250 none with
      | .ok r => r.affected.map (fun a => a.country) = ["BFA"]
      | .error _ => False) ∧
     (match DataML.simulate_aftershock cPanel cGraph none "BFA" (-1/5) 2 with
      | .ok raw => ∀ c ∈ raw.affected.map (fun a => a.country),
          c ∈ DataML.neighborsOf cGraph "BFA"
      | .error _ => False)) := by
  constructor
  · cases hok : Backend.simulate_aftershock zeroSigmoid "BFA" (-1/5) 1 cProv 250 none with
    | error err =>
      have hsome : (Backend.simulate_aftershock zeroSigmoid "BFA" (-1/5) 1 cProv
          250 none).toOption.isSome = true := rfl
      rw [hok] at hsome
      exact absurd hsome (by simp [Except.toOption])
    | ok r => exact c4_containment_amended.1 zeroSigmoid "BFA" (-1/5) 250 cProv r hok
  · cases hok : DataML.simulate_aftershock cPanel cGraph none "BFA" (-1/5) 2 with
    | error err =>
      have hsome : (DataML.simulate_aftershock cPanel cGraph none "BFA"
          (-1/5) 2).toOption.isSome = true := rfl
      rw [hok] at hsome
      exact absurd hsome (by simp [Except.toOption])
    | ok raw =>
      intro c hc
      exact c4_containment_amended.2.2 cPanel cGraph none "BFA" (-1/5) 2 raw c hok hc

/-- C4 is refuted as stated: in the DataML engine with `horizon_steps = 1`, the
affected list contains the neighbor NER and not only the epicenter BFA. -/
theorem c4_counterexample :
    ((DataML.simulate_aftershock cPanel cGraph none "BFA" (-1/5) 1).toOption.map
      (fun r => r.affected.map (fun a => a.country))) = some ["NER"] ∧
    ¬ ("NER" = "BFA") := by
  exact ⟨rfl, by decide⟩

/-- Half-even rounding never adds more than one half. -/
theorem pyRoundInt_le (x : ℚ) : (pyRoundInt x : ℚ) ≤ x + 1/2 := by
  simp only [pyRoundInt]
  have hfle : (⌊x⌋ : ℚ) ≤ x := Int.floor_le x
  by_cases h1 : x - (⌊x⌋ : ℚ) < 1/2
  · rw [if_pos h1]
    linarith
  · rw [if_neg h1]
    rw [not_lt] at h1
    by_cases h2 : x - (⌊x⌋ : ℚ) > 1/2
    · rw [if_pos h2]
      push_cast
      linarith
    · rw [if_neg h2]
      by_cases h3 : ⌊x⌋ % 2 = 0
      · rw [if_pos h3]
        linarith
      · rw [if_neg h3]
        push_cast
        linarith

/-- Summing half-even roundings of uniformly scaled values. -/
theorem sum_round_le (scale : ℚ) (l : List ℤ) :
    (((l.map (fun dd : ℤ => pyRoundInt ((dd : ℚ) * scale))).sum : ℚ)) ≤
      (l.sum : ℚ) * scale + (l.length : ℚ) * (1/2) := by
  induction l with
  | nil => simp
  | cons a t ih =>
    simp only [List.map_cons, List.sum_cons, List.length_cons, Int.cast_add,
      Nat.cast_add, Nat.cast_one, add_mul, one_mul]
    have h := pyRoundInt_le ((a : ℚ) * scale)
    linarith

theorem injectHead_length (l : List DataML.DmAffected) :
    (DataML.injectHead l).length = l.length := by
  cases l <;> simp [DataML.injectHead]

/-- The finalisation step keeps the reported total below the ceiling plus one
half per entry, and never changes how many entries there are. -/
theorem finalize_total_bound (d : ℚ) (nl : List String)
    (aff : List DataML.DmAffected) :
    (DataML.finalizeAffected d nl aff).2.1 ≤ 200000 + (aff.length : ℤ) ∧
    (DataML.finalizeAffected d nl aff).1.length = aff.length := by
  have hM : DataML.MAX_TOTAL_EXTRA_DISPLACED = 200000 := rfl
  simp only [DataML.finalizeAffected]
  split
  · -- the rescale fired
    rename_i hbig
    split
    · -- the zero-total injection also fired
      refine ⟨?_, ?_⟩
      · dsimp only
        omega
      · dsimp only
        rw [injectHead_length]
        simp
    · refine ⟨?_, ?_⟩
      · dsimp only
        set S : ℤ := (aff.map (fun x => x.delta_displaced)).sum with hS
        have hmm : ((aff.map (DataML.rescaleEntry ((DataML.TARGET_TOTAL_EXTRA_DISPLACED : ℚ) /
            (S : ℚ)))).map (fun a => a.delta_displaced)) =
            (aff.map (fun x => x.delta_displaced)).map
              (fun dd : ℤ => pyRoundInt ((dd : ℚ) *
                ((DataML.TARGET_TOTAL_EXTRA_DISPLACED : ℚ) / (S : ℚ)))) := by
          simp only [List.map_map]
          rfl
        have htarget : (DataML.TARGET_TOTAL_EXTRA_DISPLACED : ℚ) = 100000 := by
          norm_num [DataML.TARGET_TOTAL_EXTRA_DISPLACED]
        rw [hmm, htarget]
        have hSpos : (200000 : ℤ) < S := by
          have := hbig.1
          omega
        have hSne : (S : ℚ) ≠ 0 := by
          have h200 : (200000 : ℚ) < (S : ℚ) := by exact_mod_cast hSpos
          linarith
        have hsum := sum_round_le ((100000 : ℚ) / (S : ℚ))
          (aff.map (fun x => x.delta_displaced))
        rw [← hS] at hsum
        have hmul : (S : ℚ) * ((100000 : ℚ) / (S : ℚ)) = (100000 : ℚ) := by
          field_simp
        rw [hmul] at hsum
        have hlen2 : ((aff.map (fun x => x.delta_displaced)).length : ℚ) =
            (aff.length : ℚ) := by simp
        rw [hlen2] at hsum
        have hhalf : (0 : ℚ) ≤ (aff.length : ℚ) := by positivity
        have hcast : (((aff.map (fun x => x.delta_displaced)).map
            (fun dd : ℤ => pyRoundInt ((dd : ℚ) * ((100000 : ℚ) / (S : ℚ))))).sum : ℚ) ≤
            (200000 : ℚ) + (aff.length : ℚ) := by
          linarith
        exact_mod_cast hcast
      · dsimp only
        simp
  · -- no rescale
    rename_i hsmall
    split
    · -- the zero-total injection fired
      refine ⟨?_, ?_⟩
      · dsimp only
        omega
      · dsimp only
        exact injectHead_length aff
    · refine ⟨?_, ?_⟩
      · dsimp only
        have hle : (aff.map (fun a => a.delta_displaced)).sum ≤ 200000 := by
          by_contra hgt
          push_neg at hgt
          exact hsmall ⟨by omega, by omega⟩
        omega
      · rfl

/-- C5 (amended): only the DataML engine enforces a plausibility ceiling.  Its
reported `total_extra_displaced` never exceeds 200,000 plus one unit per
affected entry (exactly the raw total when no rescale fires, about the 100,000
target after a rescale, 10,000 after the zero-total injection), and the rescale
multiplies every entry's displacement uniformly by `100000 / raw_total`, keeps
`extra_cost_usd = delta_displaced * 100`, and caps every rescaled entry's
`delta_severity` at 0.5.  The backend engine applies no ceiling at all (see the
counterexample). -/
theorem c5_bound_amended :
    (∀ (panel : List DataML.DmRow) (graph : List DataML.GEdge)
        (model : Option DataML.MlModel) (n : String) (d : ℚ) (h : ℤ)
        (raw : DataML.DmResult),
      DataML.simulate_aftershock panel graph model n d h = .ok raw →
      raw.total_extra_displaced ≤ 200000 + (raw.affected.length : ℤ)) ∧
    (∀ (scale : ℚ) (a : DataML.DmAffected),
      (DataML.rescaleEntry scale a).delta_displaced =
        pyRoundInt ((a.delta_displaced : ℚ) * scale) ∧
      (DataML.rescaleEntry scale a).extra_cost_usd =
        (DataML.rescaleEntry scale a).delta_displaced * 100 ∧
      (DataML.rescaleEntry scale a).delta_severity ≤ 1/2) := by
  constructor
  · intro panel graph model n d h raw hok
    obtain ⟨st, haff, htot⟩ := dataml_ok_shape hok
    obtain ⟨hbound, hlen⟩ := finalize_total_bound d
      (DataML.neighborsOf graph (strUpper (strTrim n)))
      (DataML.buildAffected panel st (DataML.neighborsOf graph (strUpper (strTrim n))))
    rw [htot, haff, hlen]
    exact hbound
  · intro scale a
    refine ⟨rfl, rfl, ?_⟩
    show pyRound 2 (min (1/2) a.delta_severity) ≤ 1/2
    unfold pyRound
    have hm : min ((1:ℚ)/2) a.delta_severity * 10 ^ 2 ≤ 50 := by
      have h1 : min ((1:ℚ)/2) a.delta_severity ≤ 1/2 := min_le_left _ _
      nlinarith
    have h1 : (pyRoundInt (min ((1:ℚ)/2) a.delta_severity * 10 ^ 2) : ℚ) ≤ 101/2 := by
      have := pyRoundInt_le (min ((1:ℚ)/2) a.delta_severity * 10 ^ 2)
      linarith
    have h2 : pyRoundInt (min ((1:ℚ)/2) a.delta_severity * 10 ^ 2) ≤ 50 := by
      by_contra hgt
      push_neg at hgt
      have : (51 : ℚ) ≤ (pyRoundInt (min ((1:ℚ)/2) a.delta_severity * 10 ^ 2) : ℚ) := by
        exact_mod_cast hgt
      linarith
    have h3 : (pyRoundInt (min ((1:ℚ)/2) a.delta_severity * 10 ^ 2) : ℚ) ≤ 50 := by
      exact_mod_cast h2
    calc (pyRoundInt (min ((1:ℚ)/2) a.delta_severity * 10 ^ 2) : ℚ) / 10 ^ 2
        ≤ 50 / 10 ^ 2 := by
          exact (div_le_div_iff_of_pos_right (by norm_num)).mpr h3
      _ = 1/2 := by norm_num

theorem c5_bound_amended_witness :
    (match DataML.simulate_aftershock cPanel cGraph none "BFA" (-1/5) 2 with
     | .ok raw => raw.total_extra_displaced ≤ 200000 + (raw.affected.length : ℤ)
     | .error _ => False) ∧
    (DataML.rescaleEntry (1/2) ⟨"NER", 1, 30000, 3000000, 1/2⟩).delta_severity ≤ 1/2 := by
  constructor
  · cases hok : DataML.simulate_aftershock cPanel cGraph none "BFA" (-1/5) 2 with
    | error err =>
      have hsome : (DataML.simulate_aftershock cPanel cGraph none "BFA"
          (-1/5) 2).toOption.isSome = true := rfl
      rw [hok] at hsome
      exact absurd hsome (by simp [Except.toOption])
    | ok raw =>
      exact c5_bound_amended.1 cPanel cGraph none "BFA" (-1/5) 2 raw hok
  · exact (c5_bound_amended.2 (1/2) ⟨"NER", 1, 30000, 3000000, 1/2⟩).2.2

/-- C5 is refuted as stated: the backend engine rescales nothing — with a large
baseline `displaced_out` its reported `totals.total_delta_displaced` is
150,000,000, far above the 200,000 ceiling. -/
theorem c5_counterexample :
    ((Backend.simulate_aftershock zeroSigmoid "BFA" (-3/10) 1 bigProv 250
        none).toOption.map (fun r => r.totals.total_delta_displaced)) =
      some 150000000 ∧
    (200000 : ℚ) < 150000000 := by
  constructor
  · rfl
  · norm_num

theorem mem_insertStr {x y : String} {l : List String} :
    x ∈ DataML.insertStr y l ↔ x = y ∨ x ∈ l := by
  induction l with
  | nil => simp [DataML.insertStr]
  | cons z t ih =>
    simp only [DataML.insertStr]
    split
    · simp [List.mem_cons]
    · rw [List.mem_cons, ih, List.mem_cons]
      tauto

theorem mem_sortStrs {x : String} {l : List String} :
    x ∈ DataML.sortStrs l ↔ x ∈ l := by
  induction l with
  | nil => simp [DataML.sortStrs]
  | cons y t ih =>
    show x ∈ DataML.insertStr y (DataML.sortStrs t) ↔ _
    rw [mem_insertStr, ih, List.mem_cons]

theorem mem_nodesOf {x : String} {panel : List DataML.DmRow} :
    x ∈ DataML.nodesOf panel ↔ x ∈ panel.map (fun r => r.country_iso3) := by
  unfold DataML.nodesOf
  rw [mem_sortStrs, List.mem_dedup]

/-- C6 (amended): with the trained-model artifact absent the DataML engine
falls back to the heuristic strategy and still returns a fully populated
result, but its notes are only the two fixed proxy notes — heuristic mode is
NOT recorded; with a model whose node index lacks the epicenter the DataML
engine raises, and the orchestrator then falls back to the backend engine,
recording `"Backend fallback (DataML unavailable)"` in the notes. -/
theorem c6_fallback_amended :
    (∀ (panel : List DataML.DmRow) (graph : List DataML.GEdge) (n : String)
        (d : ℚ) (h : ℤ),
      ¬(h < 1 ∨ h > 10) →
      (strUpper (strTrim n)) ∈ panel.map (fun r => r.country_iso3) →
      ∃ raw, DataML.simulate_aftershock panel graph none n d h = .ok raw ∧
        raw.notes = datamlNotes) ∧
    (∀ (m : DataML.MlModel) (panel : List DataML.DmRow) (graph : List DataML.GEdge)
        (n : String) (d : ℚ) (h : ℤ),
      ¬(h < 1 ∨ h > 10) →
      (strUpper (strTrim n)) ∈ panel.map (fun r => r.country_iso3) →
      (strUpper (strTrim n)) ∉ m.nodes_index →
      DataML.simulate_aftershock panel graph (some m) n d h =
        .error (.nodeNotInModel (strUpper (strTrim n))
          (DataML.sortStrs m.nodes_index.dedup))) ∧
    (∀ (sigmoid : ℚ → ℚ) (env : Client.DatamlEnv) (provider : Backend.ProviderData)
        (c : String) (d : ℚ) (h : ℤ) (err : SimError),
      DataML.simulate_aftershock env.panel env.graph env.model c d h = .error err →
      Client.run_simulate_aftershock sigmoid (some env) provider c d h =
        (Backend.simulate_aftershock sigmoid c d h provider 250 none).map
          (fun r => ({ r with
            notes := r.notes ++ ["Backend fallback (DataML unavailable)"] }, false))) := by
  refine ⟨?_, ?_, ?_⟩
  · intro panel graph n d h hh hmem
    have hmemN : (strUpper (strTrim n)) ∈ DataML.nodesOf panel := mem_nodesOf.mpr hmem
    simp only [DataML.simulate_aftershock, if_neg hh, if_pos hmem,
      DataML.heuristicSpillover, if_pos hmemN]
    exact ⟨_, rfl, rfl⟩
  · intro m panel graph n d h hh hmem hidx
    simp only [DataML.simulate_aftershock, if_neg hh, if_pos hmem,
      DataML.runModelForward, if_neg hidx]
  · intro sigmoid env provider c d h err herr
    simp only [Client.run_simulate_aftershock, herr, Client.backendFallback]

theorem c6_fallback_amended_witness :
    ((DataML.simulate_aftershock cPanel cGraph none "BFA" (-1/5) 2).toOption.map
      (fun raw => raw.notes) = some datamlNotes) ∧
    (DataML.simulate_aftershock cPanel cGraph (some mlFixture) "BFA" (-1/5) 2 =
      .error (.nodeNotInModel "BFA" (DataML.sortStrs mlFixture.nodes_index.dedup))) ∧
    (Client.run_simulate_aftershock zeroSigmoid (some ⟨cPanel, cGraph, some mlFixture⟩)
        cProv "BFA" (-1/5) 2 =
      (Backend.simulate_aftershock zeroSigmoid "BFA" (-1/5) 2 cProv 250 none).map
        (fun r => ({ r with
          notes := r.notes ++ ["Backend fallback (DataML unavailable)"] }, false))) := by
  have h2 := c6_fallback_amended.2.1 mlFixture cPanel cGraph "BFA" (-1/5) 2
    (by decide) (by decide) (by decide)
  refine ⟨?_, h2, ?_⟩
  · obtain ⟨raw, hok, hnotes⟩ := c6_fallback_amended.1 cPanel cGraph "BFA" (-1/5) 2
      (by decide) (by decide)
    rw [hok]
    exact congrArg some hnotes
  · exact c6_fallback_amended.2.2 zeroSigmoid ⟨cPanel, cGraph, some mlFixture⟩
      cProv "BFA" (-1/5) 2 _ h2

/-- C6 is refuted as stated: with the model artifact absent the orchestrator's
result notes are only the proxy notes plus the DataML marker — none of them
records that the heuristic/fallback mode was used. -/
theorem c6_counterexample :
    ((Client.run_simulate_aftershock zeroSigmoid (some ⟨cPanel, cGraph, none⟩) cProv
        "BFA" (-1/5) 2).toOption.map (fun rb => rb.1.notes)) =
      some ["severity proxy: INFORM", "cost proxy: 100 USD per person",
        "DataML simulation"] ∧
    (["severity proxy: INFORM", "cost proxy: 100 USD per person",
        "DataML simulation"].all (fun s =>
      !(mentionsStr "heuristic" s) && !(mentionsStr "Heuristic" s) &&
      !(mentionsStr "fallback" s) && !(mentionsStr "Fallback" s)) = true) := by
  exact ⟨rfl, by decide⟩

/-- C7 (amended): the DataML neighbor lookup is undirected — an edge between A
and B makes each a neighbor of the other — but in the backend engine's horizon
loop the shock crosses an edge only from its `src` to its `dst`: every key of
the propagated shock map is an existing key or the destination of an out-edge
of an existing key. -/
theorem c7_undirected_amended :
    (∀ (graph : List DataML.GEdge) (a b : String), (⟨a, b⟩ : DataML.GEdge) ∈ graph →
      b ∈ DataML.neighborsOf graph a ∧ a ∈ DataML.neighborsOf graph b) ∧
    (∀ (edges : List Backend.EdgeRec) (scope : Option (List String))
        (sh : Backend.Shock) (c : String),
      c ∈ (Backend.propagateStep edges scope sh).map (fun p => p.1) →
      c ∈ sh.map (fun p => p.1) ∨
      ∃ s ∈ sh.map (fun p => p.1),
        c ∈ (Backend.outEdges edges s).map (fun p => p.1)) := by
  constructor
  · intro graph a b hmem
    constructor
    · unfold DataML.neighborsOf
      rw [mem_sortStrs, List.mem_dedup, List.mem_filterMap]
      exact ⟨⟨a, b⟩, hmem, by simp⟩
    · unfold DataML.neighborsOf
      rw [mem_sortStrs, List.mem_dedup, List.mem_filterMap]
      refine ⟨⟨a, b⟩, hmem, ?_⟩
      by_cases hab : a = b <;> simp [hab]
  · intro edges scope sh c hc
    exact propagateStep_keys hc

theorem c7_undirected_amended_witness :
    ("NER" ∈ DataML.neighborsOf cGraph "BFA" ∧
      "BFA" ∈ DataML.neighborsOf cGraph "NER") ∧
    "NER" ∈ (Backend.outEdges cProv.edges "BFA").map (fun p => p.1) := by
  constructor
  · exact c7_undirected_amended.1 cGraph "BFA" "NER" (by decide)
  · have h := c7_undirected_amended.2 cProv.edges none [("BFA", 1, 1)] "NER" (by decide)
    rcases h with h1 | h1
    · exact absurd h1 (by decide)
    · obtain ⟨s, hs, hcs⟩ := h1
      have hsb : s = "BFA" := by simpa using hs
      rw [hsb] at hcs
      exact hcs

/-- C7 is refuted as stated: the backend horizon loop treats edges as directed.
With the single edge AAA→BBB and epicenter BBB, two propagation steps leave the
shock at BBB alone — the edge between AAA and BBB is never crossed from BBB to
AAA. -/
theorem c7_counterexample :
    ((Backend.simulate_aftershock zeroSigmoid "BBB" (-1/5) 2 revProv 250
        none).toOption.map (fun r => r.affected.map (fun a => a.country))) =
      some ["BBB"] ∧
    revProv.edges.map (fun e => (e.src, e.dst)) = [("AAA", "BBB")] := by
  exact ⟨rfl, rfl⟩

/-- C8 (amended): when the funding change is negative, the neighbor list is
nonempty, and the computed total extra displaced is exactly zero, the totals
are forced to 10,000 displaced / 1,000,000 USD, and the minimum impact is
injected on the first entry of the affected list when that list is nonempty —
but when every graph neighbor is missing from the panel the affected list is
empty and nothing carries the injected impact (see the counterexample). -/
theorem c8_injection_amended (d : ℚ) (nl : List String) (a : DataML.DmAffected)
    (t : List DataML.DmAffected)
    (hd : d < 0) (hnl : nl ≠ [])
    (hz : ((a :: t).map (fun x => x.delta_displaced)).sum = 0) :
    DataML.finalizeAffected d nl (a :: t) =
      ({ a with delta_displaced := 10000
                extra_cost_usd := 1000000
                delta_severity := pyRound 2 (min 1 (15/100 + a.delta_severity))
                prob_underfunded_next :=
                  pyRound 2 (min 1 (38/100 + a.prob_underfunded_next)) } :: t,
       10000, 1000000) ∧
    (∀ aff : List DataML.DmAffected, (aff.map (fun x => x.delta_displaced)).sum = 0 →
      (DataML.finalizeAffected d nl aff).2.1 = 10000) := by
  have hres : ∀ aff : List DataML.DmAffected,
      (aff.map (fun x => x.delta_displaced)).sum = 0 →
      DataML.finalizeAffected d nl aff =
        (DataML.injectHead aff, 10000, 10000 * DataML.COST_PER_PERSON_USD) := by
    intro aff hz2
    have hM0 : ¬(((aff.map (fun x => x.delta_displaced)).sum >
        DataML.MAX_TOTAL_EXTRA_DISPLACED) ∧
        ((aff.map (fun x => x.delta_displaced)).sum > 0)) := by
      rw [hz2]
      rintro ⟨h1, h2⟩
      exact absurd h2 (by omega)
    simp only [DataML.finalizeAffected, if_neg hM0]
    rw [if_pos ⟨hd, hnl, hz2⟩]
  constructor
  · rw [hres (a :: t) hz]
    rfl
  · intro aff hz2
    rw [hres aff hz2]

theorem c8_injection_amended_witness :
    DataML.finalizeAffected (-1/5) ["NER"] [⟨"NER", 0, 0, 0, 1/2⟩] =
      ([⟨"NER", pyRound 2 (min 1 (15/100 + 0)), 10000, 1000000,
        pyRound 2 (min 1 (38/100 + 1/2))⟩], 10000, 1000000) ∧
    (DataML.finalizeAffected (-1/5) ["NER"] []).2.1 = 10000 := by
  have h := c8_injection_amended (-1/5) ["NER"] ⟨"NER", 0, 0, 0, 1/2⟩ []
    (by norm_num) (by simp) (by simp)
  exact ⟨h.1, h.2 [] (by simp)⟩

/-- C8 is refuted as stated: with a funding cut, a graph neighbor (ZZZ) and a
computed zero total, but ZZZ absent from the panel, the totals are forced to
10,000 displaced / 1,000,000 USD while the affected list stays empty — no
displacement impact is injected on any neighbor entry. -/
theorem c8_counterexample :
    ((DataML.simulate_aftershock c8Panel c8Graph none "BFA" (-1/5) 1).toOption.map
      (fun raw => (raw.affected, raw.total_extra_displaced,
        raw.total_extra_cost_usd))) = some ([], 10000, 1000000) ∧
    ((-1/5 : ℚ) < 0 ∧ DataML.neighborsOf c8Graph "BFA" = ["ZZZ"]) := by
  constructor
  · rfl
  · constructor
    · norm_num
    · rfl

theorem pyRoundInt_nonneg {x : ℚ} (h : 0 ≤ x) : 0 ≤ pyRoundInt x := by
  simp only [pyRoundInt]
  have hf : (0 : ℤ) ≤ ⌊x⌋ := Int.floor_nonneg.mpr h
  split_ifs <;> omega

theorem pyRound_nonneg {n : ℕ} {x : ℚ} (h : 0 ≤ x) : 0 ≤ pyRound n x := by
  unfold pyRound
  apply div_nonneg
  · exact_mod_cast pyRoundInt_nonneg (mul_nonneg h (by positivity))
  · positivity

theorem pyRoundInt_le_int {x : ℚ} {z : ℤ} (h : x ≤ (z : ℚ)) : pyRoundInt x ≤ z := by
  have h1 := pyRoundInt_le x
  by_contra hgt
  push_neg at hgt
  have h2 : ((z + 1 : ℤ) : ℚ) ≤ (pyRoundInt x : ℚ) := by exact_mod_cast hgt
  push_cast at h2
  linarith

theorem pyRound4_le_three {x : ℚ} (h : x ≤ 3) : pyRound 4 x ≤ 3 := by
  unfold pyRound
  have hz : pyRoundInt (x * 10 ^ 4) ≤ 30000 := by
    apply pyRoundInt_le_int
    push_cast
    nlinarith
  have hzq : (pyRoundInt (x * 10 ^ 4) : ℚ) ≤ 30000 := by exact_mod_cast hz
  calc (pyRoundInt (x * 10 ^ 4) : ℚ) / 10 ^ 4 ≤ 30000 / 10 ^ 4 := by
        exact (div_le_div_iff_of_pos_right (by norm_num)).mpr hzq
    _ = 3 := by norm_num

theorem strUpper_eq_empty {s : String} : strUpper s = "" ↔ s = "" := by
  cases s with
  | mk data =>
    cases data with
    | nil => exact ⟨fun _ => rfl, fun _ => rfl⟩
    | cons c cs =>
      constructor
      · intro h
        exact absurd (congrArg String.data h) (by simp [strUpper])
      · intro h
        exact absurd (congrArg String.data h) (by simp)

/-- The normalisation loop never changes an entry's country. -/
theorem fillProjected_country (panel : Backend.Panel) (ep : String) (delta : ℚ)
    (a : Backend.Impact) :
    (Route.fillProjected panel ep delta a).country = a.country := by
  simp only [Route.fillProjected]
  split
  · rfl
  · split
    · split
      · rfl
      · rfl
    · split
      · rfl
      · rfl

/-- On an engine entry (nonempty country, no projected fields yet) the
normalisation loop fills both projected fields with values in range. -/
theorem fillProjected_bounds {panel : Backend.Panel} {ep : String} {delta : ℚ}
    {a : Backend.Impact}
    (hc : a.country ≠ "") (hps : a.projected_severity = none)
    (hpc : a.projected_coverage = none) :
    (∃ v, (Route.fillProjected panel ep delta a).projected_severity = some v ∧
      0 ≤ v) ∧
    (∃ w, (Route.fillProjected panel ep delta a).projected_coverage = some w ∧
      0 ≤ w ∧ w ≤ 3) := by
  have hcU : ¬(strUpper a.country = "") := fun h => hc (strUpper_eq_empty.mp h)
  simp only [Route.fillProjected, if_neg hcU, hps, hpc]
  constructor
  · refine ⟨_, rfl, ?_⟩
    exact pyRound_nonneg (le_max_left _ _)
  · refine ⟨_, rfl, ?_, ?_⟩
    · exact pyRound_nonneg (le_max_left _ _)
    · exact pyRound4_le_three (max_le (by norm_num) (min_le_left _ _))

/-- The inserted zero-impact epicenter entry already carries projected fields,
so the normalisation loop leaves it unchanged. -/
theorem fillProjected_zeroInsert (panel : Backend.Panel) (ep : String) (delta : ℚ)
    (hep : ep ≠ "") :
    Route.fillProjected panel ep delta (Route.zeroInsert panel ep delta) =
      Route.zeroInsert panel ep delta := by
  have hepU : ¬(strUpper ep = "") := fun h => hep (strUpper_eq_empty.mp h)
  simp only [Route.fillProjected, Route.zeroInsert, if_neg hepU]

/-- Entries built by the backend engine carry no projected fields. -/
theorem buildAffected_projected_none (sigmoid : ℚ → ℚ) (panel : Backend.Panel)
    (scope : Option (List String)) (e : String) (cost : ℚ) (sh : Backend.Shock) :
    ∀ a ∈ (Backend.buildAffected sigmoid panel scope e cost sh).1,
      a.projected_severity = none ∧ a.projected_coverage = none := by
  have aux : ∀ (l : Backend.Shock) (acc : List Backend.Impact × ℚ × ℚ × ℚ),
      (∀ a ∈ acc.1, a.projected_severity = none ∧ a.projected_coverage = none) →
      ∀ a ∈ (l.foldl (Backend.buildStep sigmoid panel scope e cost) acc).1,
        a.projected_severity = none ∧ a.projected_coverage = none := by
    intro l
    induction l with
    | nil => intro acc hacc; exact hacc
    | cons p t ih =>
      intro acc hacc
      simp only [List.foldl_cons]
      apply ih
      intro a ha
      simp only [Backend.buildStep] at ha
      split at ha
      · exact hacc a ha
      · split at ha
        · rcases List.mem_append.mp ha with h1 | h1
          · exact hacc a h1
          · rw [List.mem_singleton] at h1
            subst h1
            exact ⟨rfl, rfl⟩
        · exact hacc a ha
  exact aux sh ([], 0, 0, 0) (by simp)

/-- Entries returned by the orchestrator carry no projected fields (the DataML
entries are mapped with none, the backend entries are built with none). -/
theorem client_ok_projected_none {sigmoid : ℚ → ℚ} {dataml : Option Client.DatamlEnv}
    {provider : Backend.ProviderData} {c : String} {d : ℚ} {h : ℤ}
    {rd : Backend.SimResult} {b : Bool}
    (hok : Client.run_simulate_aftershock sigmoid dataml provider c d h = .ok (rd, b)) :
    ∀ a ∈ rd.affected, a.projected_severity = none ∧ a.projected_coverage = none := by
  have hfb : ∀ rd' b',
      Client.backendFallback sigmoid provider c d h = .ok (rd', b') →
      ∀ a ∈ rd'.affected, a.projected_severity = none ∧ a.projected_coverage = none := by
    intro rd' b' hfb a ha
    simp only [Client.backendFallback] at hfb
    cases hb : Backend.simulate_aftershock sigmoid c d h provider 250 none with
    | error err => rw [hb] at hfb; exact absurd hfb (by simp [Except.map])
    | ok r0 =>
      rw [hb] at hfb
      simp only [Except.map] at hfb
      injection hfb with h1
      injection h1 with h2 h3
      obtain ⟨row, hrow, haff, _⟩ := backend_ok_shape hb
      rw [← h2] at ha
      have ha' : a ∈ r0.affected := ha
      rw [haff] at ha'
      exact buildAffected_projected_none _ _ _ _ _ _ a ha'
  cases dataml with
  | none => exact hfb rd b hok
  | some env =>
    simp only [Client.run_simulate_aftershock] at hok
    cases hdm : DataML.simulate_aftershock env.panel env.graph env.model c d h with
    | error err => rw [hdm] at hok; exact hfb rd b hok
    | ok raw =>
      rw [hdm] at hok
      injection hok with h1
      injection h1 with h2 h3
      intro a ha
      rw [← h2] at ha
      have ha' : a ∈ raw.affected.map Client.toImpact := ha
      obtain ⟨a0, _, rfl⟩ := List.mem_map.mp ha'
      exact ⟨rfl, rfl⟩

/-- C10: for every successful `/simulate/aftershock` call the affected list
returned to the client contains an entry for the (uppercased) epicenter — when
the engine result lacks one, a zero-impact entry (&zero delta_severity,
delta_displaced, extra_cost_usd) is inserted at the front — and every returned
entry carries `projected_severity ≥ 0` and `projected_coverage ∈ [0, 3]`.
Stated over the route's normalisation block (`normalizeAffected`, the exact
code of `simulate_aftershock_route` lines 129-164) under the hypotheses that
hold for every engine result: entry countries are nonempty, engine entries
carry no projected fields (the first conjunct proves this invariant for every
orchestrator result), the epicenter code is nonempty, and panel severities are
nonnegative (the data model clamps severity into [0, 1]). -/
theorem c10_route_normalization :
    (∀ (sigmoid : ℚ → ℚ) (dataml : Option Client.DatamlEnv)
        (provider : Backend.ProviderData) (c : String) (d : ℚ) (h : ℤ)
        (rd : Backend.SimResult) (b : Bool),
      Client.run_simulate_aftershock sigmoid dataml provider c d h = .ok (rd, b) →
      ∀ a ∈ rd.affected, a.projected_severity = none ∧
        a.projected_coverage = none) ∧
    (∀ (panel : Backend.Panel) (ep : String) (delta : ℚ)
        (aff : List Backend.Impact),
      ep ≠ "" →
      (∀ c row, Backend.Panel.find panel c = some row →
        0 ≤ row.severity.getD (1/2)) →
      (∀ a ∈ aff, a.country ≠ "" ∧ a.projected_severity = none ∧
        a.projected_coverage = none) →
      ((∃ a ∈ Route.normalizeAffected panel ep delta aff, a.country = ep) ∧
       (ep ∉ (aff.filter (fun a => a.country ≠ "")).map (fun a => a.country) →
         ∃ rest, Route.normalizeAffected panel ep delta aff =
           Route.zeroInsert panel ep delta :: rest ∧
           (Route.zeroInsert panel ep delta).country = ep ∧
           (Route.zeroInsert panel ep delta).delta_severity = 0 ∧
           (Route.zeroInsert panel ep delta).delta_displaced = 0 ∧
           (Route.zeroInsert panel ep delta).extra_cost_usd = 0) ∧
       (∀ a ∈ Route.normalizeAffected panel ep delta aff,
         (∃ v, a.projected_severity = some v ∧ 0 ≤ v) ∧
         (∃ w, a.projected_coverage = some w ∧ 0 ≤ w ∧ w ≤ 3)))) ∧
    (∀ (sigmoid : ℚ → ℚ) (dataml : Option Client.DatamlEnv)
        (provider : Backend.ProviderData) (payload : Route.AftershockParams)
        (r : Backend.SimResult),
      Route.simulate_aftershock_route sigmoid dataml provider payload = .ok r →
      ∃ rd b, Client.run_simulate_aftershock sigmoid dataml provider
          (strUpper payload.epicenter) (clampedDelta payload)
          (clampedHorizon payload) = .ok (rd, b) ∧
        r.affected = Route.normalizeAffected (provider.panelOf rd.baseline_year)
          (strUpper payload.epicenter) (clampedDelta payload) rd.affected) := by
  refine ⟨?_, ?_, ?_⟩
  · intro sigmoid dataml provider c d h rd b hok
    exact client_ok_projected_none hok
  swap
  · intro sigmoid dataml provider payload r hok
    obtain ⟨rd, b, hcl, hre⟩ := route_ok_shape hok
    subst hre
    exact ⟨rd, b, hcl, rfl⟩
  · intro panel ep delta aff hep hsev hent
    have hsev0 : 0 ≤ ((Backend.Panel.find panel ep).getD
        Backend.PanelRow.empty).severity.getD (1/2) := by
      cases hfind : Backend.Panel.find panel ep with
      | none => norm_num [Backend.PanelRow.empty]
      | some row => exact hsev ep row hfind
    have hheadBounds :
        (∃ v, (Route.zeroInsert panel ep delta).projected_severity = some v ∧
          0 ≤ v) ∧
        (∃ w, (Route.zeroInsert panel ep delta).projected_coverage = some w ∧
          0 ≤ w ∧ w ≤ 3) := by
      constructor
      · exact ⟨_, rfl, hsev0⟩
      · refine ⟨_, rfl, le_max_left _ _, max_le (by norm_num) (min_le_left _ _)⟩
    by_cases hmem : ep ∈ (aff.filter (fun a => a.country ≠ "")).map
        (fun a => a.country)
    · have hwithEp : Route.normalizeAffected panel ep delta aff =
          aff.map (Route.fillProjected panel ep delta) := by
        simp only [Route.normalizeAffected]
        rw [if_neg (by intro hand; exact hand.2 hmem)]
      refine ⟨?_, ?_, ?_⟩
      · obtain ⟨a0, ha0, hcountry⟩ := List.mem_map.mp hmem
        have ha0' : a0 ∈ aff := List.mem_of_mem_filter ha0
        refine ⟨Route.fillProjected panel ep delta a0, ?_, ?_⟩
        · rw [hwithEp]
          exact List.mem_map_of_mem _ ha0'
        · rw [fillProjected_country]
          exact hcountry
      · intro hno
        exact absurd hmem hno
      · intro a ha
        rw [hwithEp] at ha
        obtain ⟨a0, ha0, rfl⟩ := List.mem_map.mp ha
        obtain ⟨hc0, hs0, hpc0⟩ := hent a0 ha0
        exact fillProjected_bounds hc0 hs0 hpc0
    · have hwithEp : Route.normalizeAffected panel ep delta aff =
          Route.zeroInsert panel ep delta ::
            aff.map (Route.fillProjected panel ep delta) := by
        simp only [Route.normalizeAffected]
        rw [if_pos ⟨hep, hmem⟩, List.map_cons,
          fillProjected_zeroInsert panel ep delta hep]
      refine ⟨?_, ?_, ?_⟩
      · refine ⟨Route.zeroInsert panel ep delta, ?_, rfl⟩
        rw [hwithEp]
        exact List.mem_cons_self _ _
      · intro _
        exact ⟨aff.map (Route.fillProjected panel ep delta), hwithEp,
          rfl, rfl, rfl, rfl⟩
      · intro a ha
        rw [hwithEp] at ha
        rcases List.mem_cons.mp ha with h1 | h1
        · subst h1
          exact hheadBounds
        · obtain ⟨a0, ha0, rfl⟩ := List.mem_map.mp h1
          obtain ⟨hc0, hs0, hpc0⟩ := hent a0 ha0
          exact fillProjected_bounds hc0 hs0 hpc0

theorem c10_route_normalization_witness :
    ((match Client.run_simulate_aftershock zeroSigmoid (some ⟨cPanel, cGraph, none⟩)
        cProv "BFA" (-1/5) 2 with
      | .ok rdb => ∀ a ∈ rdb.1.affected, a.projected_severity = none ∧
          a.projected_coverage = none
      | .error _ => False) ∧
     ((∃ a ∈ Route.normalizeAffected (cProv.panelOf 2024) "BFA" (-1/5)
        [⟨"NER", 1/50, 8333, 833300, 3/5, some "Spillover from epicenter",
          none, none⟩], a.country = "BFA") ∧
      (∀ a ∈ Route.normalizeAffected (cProv.panelOf 2024) "BFA" (-1/5)
        [⟨"NER", 1/50, 8333, 833300, 3/5, some "Spillover from epicenter",
          none, none⟩],
        (∃ v, a.projected_severity = some v ∧ 0 ≤ v) ∧
        (∃ w, a.projected_coverage = some w ∧ 0 ≤ w ∧ w ≤ 3))) ∧
     (match Route.simulate_aftershock_route zeroSigmoid (some ⟨cPanel, cGraph, none⟩)
        cProv ⟨"BFA", -1/5, 2⟩ with
      | .ok r => ∃ rd b, Client.run_simulate_aftershock zeroSigmoid
            (some ⟨cPanel, cGraph, none⟩) cProv (strUpper "BFA")
            (clampedDelta ⟨"BFA", -1/5, 2⟩) (clampedHorizon ⟨"BFA", -1/5, 2⟩) =
              .ok (rd, b) ∧
          r.affected = Route.normalizeAffected (cProv.panelOf rd.baseline_year)
            (strUpper "BFA") (clampedDelta ⟨"BFA", -1/5, 2⟩) rd.affected
      | .error _ => False)) := by
  refine ⟨?_, ?_, ?_⟩
  swap
  swap
  · cases hok : Client.run_simulate_aftershock zeroSigmoid
        (some ⟨cPanel, cGraph, none⟩) cProv "BFA" (-1/5) 2 with
    | error err =>
      have hsome : (Client.run_simulate_aftershock zeroSigmoid
          (some ⟨cPanel, cGraph, none⟩) cProv "BFA" (-1/5) 2).toOption.isSome =
            true := rfl
      rw [hok] at hsome
      exact absurd hsome (by simp [Except.toOption])
    | ok rdb =>
      exact c10_route_normalization.1 zeroSigmoid (some ⟨cPanel, cGraph, none⟩)
        cProv "BFA" (-1/5) 2 rdb.1 rdb.2 (by rw [← hok])
  · have h := c10_route_normalization.2.1 (cProv.panelOf 2024) "BFA" (-1/5)
      [⟨"NER", 1/50, 8333, 833300, 3/5, some "Spillover from epicenter",
        none, none⟩]
      (by decide)
      (by
        intro c row hrow
        simp only [cProv, Backend.Panel.find] at hrow
        split at hrow
        · injection hrow with h1
          rw [← h1]
          decide
        · split at hrow
          · injection hrow with h1
            rw [← h1]
            decide
          · exact absurd hrow (by simp))
      (by
        intro a ha
        rw [List.mem_singleton] at ha
        subst ha
        exact ⟨by decide, rfl, rfl⟩)
    exact ⟨h.1, h.2.2⟩
  · cases hok : Route.simulate_aftershock_route zeroSigmoid
        (some ⟨cPanel, cGraph, none⟩) cProv ⟨"BFA", -1/5, 2⟩ with
    | error err =>
      have hsome : (Route.simulate_aftershock_route zeroSigmoid
          (some ⟨cPanel, cGraph, none⟩) cProv
          ⟨"BFA", -1/5, 2⟩).toOption.isSome = true := rfl
      rw [hok] at hsome
      exact absurd hsome (by simp [Except.toOption])
    | ok r =>
      exact c10_route_normalization.2.2 zeroSigmoid (some ⟨cPanel, cGraph, none⟩)
        cProv ⟨"BFA", -1/5, 2⟩ r hok

/-- C9: in the backend heuristic engine, the epicenter's initial deltas are
`delta_severity = alpha * s * (1 - coverage_epicenter)` and
`delta_displaced = beta * s * (displaced_out / 100000) * 10000` with
`s = -delta_funding_pct`, `alpha = 0.35`, `beta = 0.5`; at horizon 1 the
result's single affected entry reports exactly these closed-form values
(rounded at 4 and 2 decimals for presentation, as the result normaliser does). -/
theorem c9_epicenter_formula
    (sigmoid : ℚ → ℚ) (e : String) (d cost : ℚ) (data : Backend.ProviderData)
    (row : Backend.PanelRow)
    (hrow : Backend.Panel.find (data.panelOf data.baseline_year) e = some row) :
    Backend.ALPHA = 35/100 ∧ Backend.BETA = 1/2 ∧
    ∃ r, Backend.simulate_aftershock sigmoid e d 1 data cost none = .ok r ∧
      r.affected.map (fun a => (a.country, a.delta_severity, a.delta_displaced)) =
        [(e, pyRound 4 (Backend.ALPHA * (-d) * (1 - row.coverage_proxy.getD (1/2))),
          pyRound 2 (Backend.BETA * (-d) * (row.displaced_out.getD 10000 / 100000) * 10000))] := by
  refine ⟨rfl, rfl, ?_⟩
  simp only [Backend.simulate_aftershock, hrow]
  refine ⟨_, rfl, ?_⟩
  simp [Backend.buildAffected, Backend.buildStep, Backend.iterN, Backend.inScope, hrow]

theorem c9_epicenter_formula_witness :
    Backend.ALPHA = 35/100 ∧ Backend.BETA = 1/2 ∧
    ∃ r, Backend.simulate_aftershock zeroSigmoid "BFA" (-1/5) 1 cProv 250 none = .ok r ∧
      r.affected.map (fun a => (a.country, a.delta_severity, a.delta_displaced)) =
        [("BFA", pyRound 4 (Backend.ALPHA * (-(-1/5)) * (1 - 1/2)),
          pyRound 2 (Backend.BETA * (-(-1/5)) * (20000 / 100000) * 10000))] :=
  c9_epicenter_formula zeroSigmoid "BFA" (-1/5) 250 cProv
    ⟨some (6/10), some (1/2), none, some 20000, some 100000000⟩ (by decide)

end

end AidSight
